import Mathlib

/-!
# Scenario programs `problem1c`, `problem2`, `problem3a`

Each program is a `main` that assembles a wireless scenario (nodes, loss
matrix, devices, addresses, traffic sources and sinks, stop time) and hands
it to the simulation library.  The embedding follows each `main` statement
by statement; the library calls it makes are modelled by small pure
functions on explicit state (counters, association lists).
-/

set_option autoImplicit false

namespace ns3

/-! ## Library objects the scenario programs configure -/

/-- Simulated time, held as a whole number of tenths of a second (every time
in the programs is a literal with one decimal digit). -/
abbrev Time := Nat

/-- The value of `Seconds(w.t)` for a literal with one decimal digit:
`Seconds(0.1)` is `Seconds 0 1`, `Seconds(200.0)` is `Seconds 200 0`. -/
def Seconds (whole tenth : Nat) : Time :=
  whole * 10 + tenth

/-- Result of a program run: the value it produces, `abort` when a library
call it makes has no result (an index out of range, a missing object), or
`outOfFuel` when the run was cut off before it ended. -/
inductive Outcome (α : Type) where
  | done (value : α)
  | abort
  | outOfFuel
deriving DecidableEq, Repr

/-- Sequencing: the rest of the program runs only after a step that is
`done`. -/
@[noinline]
def Outcome.bind {α β : Type} (x : Outcome α) (f : α → Outcome β) : Outcome β :=
  match x with
  | Outcome.done a => f a
  | Outcome.abort => Outcome.abort
  | Outcome.outOfFuel => Outcome.outOfFuel

instance : Monad Outcome where
  pure := Outcome.done
  bind := Outcome.bind

/-- A node is identified by its id; ids are handed out 0, 1, 2, ... in
creation order (`Node::GetId`). -/
abbrev Node := Nat

/-- The nodes held by a `NodeContainer`, in insertion order. -/
structure NodeContainer where
  m_nodes : List Node
deriving DecidableEq, Repr

/-- Modelled from the spec: `NodeContainer::Create(n)` is library code outside
the repository; it creates `n` new nodes, each "a participant with a unique
identifier".  `created` is the number of nodes created so far; the result is
the container and the new count. -/
def NodeContainer.Create (created : Nat) (n : Nat) : NodeContainer × Nat :=
  (⟨List.range' created n⟩, created + n)

/-- The call `c.Get(i)`: the `i`-th node of the container, if there is one. -/
def NodeContainer.Get (c : NodeContainer) (i : Nat) : Outcome Node :=
  match c.m_nodes.get? i with
  | some n => Outcome.done n
  | none => Outcome.abort

/-- The call `c.GetN()`: number of nodes in the container. -/
def NodeContainer.GetN (c : NodeContainer) : Nat :=
  c.m_nodes.length

/-- Result of a connectivity query, in the spec's vocabulary. -/
inductive LossOutcome where
  | Unreachable
  | Reachable (attenuationDb : Int)
deriving DecidableEq, Repr

/-- The state of a `MatrixPropagationLossModel`: the default loss and the
explicit entries, keyed by ordered pair (one mobility model per node, so a
pair of mobility models is a pair of nodes). -/
structure MatrixPropagationLossModel where
  m_default : Int
  m_loss : List ((Node × Node) × Int)
deriving DecidableEq, Repr

namespace MatrixPropagationLossModel

/-- A fresh model, `CreateObject<MatrixPropagationLossModel>()`: no entries;
`initialDefault` is the library's initial default loss, which the repository
does not show. -/
def CreateObject (initialDefault : Int) : MatrixPropagationLossModel :=
  ⟨initialDefault, []⟩

/-- The call `SetDefaultLoss(d)`. -/
def SetDefaultLoss (m : MatrixPropagationLossModel) (d : Int) :
    MatrixPropagationLossModel :=
  ⟨d, m.m_loss⟩

/-- Record one directed entry: overwrite the entry of `p` if there is one,
else add it. -/
def record (p : Node × Node) (loss : Int) :
    List ((Node × Node) × Int) → List ((Node × Node) × Int)
  | [] => [(p, loss)]
  | e :: rest => if e.1 = p then (p, loss) :: rest else e :: record p loss rest

/-- Modelled from the spec: `MatrixPropagationLossModel::SetLoss` is library
code outside the repository.  "`setLoss(a, b, attenuationDb)` records a
directed entry"; "entries are symmetric only if explicitly set symmetric":
with `symmetric` the reverse entry `(b, a)` is recorded as well.  The
programs call `SetLoss(a, b, 0)` with three arguments, so `symmetric` is
whatever the library declaration defaults it to. -/
def SetLoss (m : MatrixPropagationLossModel) (a b : Node) (loss : Int)
    (symmetric : Bool) : MatrixPropagationLossModel :=
  let m1 : MatrixPropagationLossModel := ⟨m.m_default, record (a, b) loss m.m_loss⟩
  if symmetric then ⟨m1.m_default, record (b, a) loss m1.m_loss⟩ else m1

/-- The explicit entry of the ordered pair `(a, b)`, if any. -/
def entry (m : MatrixPropagationLossModel) (a b : Node) : Option Int :=
  (m.m_loss.find? (fun e => e.1 = (a, b))).map (fun e => e.2)

/-- The loss in dB the model applies from `a` to `b`: the explicit entry, or
the default loss when the pair has none. -/
def GetLoss (m : MatrixPropagationLossModel) (a b : Node) : Int :=
  (m.entry a b).getD m.m_default

/-- Modelled from the spec: "`query(a, b)` returns `Unreachable` or
`Reachable(attenuationDb)`, defaulting to `Unreachable` for any pair never
set". -/
def query (m : MatrixPropagationLossModel) (a b : Node) : LossOutcome :=
  match m.entry a b with
  | some l => LossOutcome.Reachable l
  | none => LossOutcome.Unreachable

end MatrixPropagationLossModel

/-- The mobility models aggregated so far, one per listed node
(`n->AggregateObject(CreateObject<ConstantPositionMobilityModel>())`). -/
def AggregateObject (aggregated : List Node) (n : Node) : List Node :=
  aggregated ++ [n]

/-- The call `n->GetObject<MobilityModel>()`: the mobility model of node `n`
(identified with `n`), if one was aggregated to it. -/
def GetObject (aggregated : List Node) (n : Node) : Outcome Node :=
  if n ∈ aggregated then Outcome.done n else Outcome.abort

/-- How a program sets up the propagation loss of its channel. -/
inductive PropagationLoss where
  /-- The call `wifiChannel->SetPropagationLossModel(propagationLoss)` on a
  channel made with `CreateObject<YansWifiChannel>()`. -/
  | matrix (m : MatrixPropagationLossModel)
  /-- A channel made by `YansWifiChannelHelper::Default()` and `Create()`:
  whatever loss model the library helper installs; the program sets none. -/
  | helperDefault
deriving DecidableEq, Repr

/-- The MAC type chosen by `wifiMacHelper.SetType`. -/
inductive WifiMacType where
  | ApWifiMac
  | StaWifiMac
deriving DecidableEq, Repr

/-- The MAC helper after `SetType(type, "Ssid", ssid, ...)`. -/
structure WifiMacHelper where
  type : WifiMacType
  ssid : String
  activeProbing : Option Bool
deriving DecidableEq, Repr

/-- The call `wifiMacHelper.SetType(...)`. -/
def WifiMacHelper.SetType (type : WifiMacType) (ssid : String)
    (activeProbing : Option Bool) : WifiMacHelper :=
  ⟨type, ssid, activeProbing⟩

/-- A Wi-Fi device: its node, its MAC address (a 48-bit number) and the MAC
configuration it was installed with. -/
structure NetDevice where
  node : Node
  m_address : Nat
  mac : WifiMacHelper
deriving DecidableEq, Repr

/-- The devices held by a `NetDeviceContainer`, in insertion order. -/
structure NetDeviceContainer where
  m_devices : List NetDevice
deriving DecidableEq, Repr

/-- One device per node; the device of each node takes the next MAC address
after the `allocated` ones handed out so far, the first ever being
`00:00:00:00:00:01`, as the address tables of the programs list them. -/
def WifiHelper.installOn (mac : WifiMacHelper) : Nat → List Node → List NetDevice
  | _, [] => []
  | allocated, n :: rest =>
      ⟨n, allocated + 1, mac⟩ :: WifiHelper.installOn mac (allocated + 1) rest

/-- The call `wifiHelper.Install(wifiPhy, wifiMacHelper, c)`; returns the
devices and the new count of allocated MAC addresses. -/
def WifiHelper.Install (allocated : Nat) (mac : WifiMacHelper) (c : NodeContainer) :
    NetDeviceContainer × Nat :=
  (⟨WifiHelper.installOn mac allocated c.m_nodes⟩, allocated + c.m_nodes.length)

/-- The 32-bit value of the dotted address `a.b.c.d`. -/
def Ipv4Address (a b c d : Nat) : Nat :=
  a * 2 ^ 24 + b * 2 ^ 16 + c * 2 ^ 8 + d

/-- The state of an `Ipv4AddressHelper`: network, mask, next host number. -/
structure Ipv4AddressHelper where
  m_network : Nat
  m_mask : Nat
  m_address : Nat
deriving DecidableEq, Repr

/-- The call `SetBase(network, mask)`: host numbers restart at 1. -/
def Ipv4AddressHelper.SetBase (network mask : Nat) : Ipv4AddressHelper :=
  ⟨network, mask, 1⟩

/-- Give each device the next host number of the network, as the address
tables of the programs list them. -/
def Ipv4AddressHelper.assignTo (network : Nat) : Nat → List NetDevice → List (NetDevice × Nat)
  | _, [] => []
  | host, d :: rest =>
      (d, (network + host) % 2 ^ 32) :: Ipv4AddressHelper.assignTo network (host + 1) rest

/-- The interfaces held by an `Ipv4InterfaceContainer`: device and address. -/
structure Ipv4InterfaceContainer where
  m_interfaces : List (NetDevice × Nat)
deriving DecidableEq, Repr

/-- The call `ipv4AddressHelper.Assign(c)`; returns the interfaces and the
helper with its host number advanced. -/
def Ipv4AddressHelper.Assign (h : Ipv4AddressHelper) (c : NetDeviceContainer) :
    Ipv4InterfaceContainer × Ipv4AddressHelper :=
  (⟨Ipv4AddressHelper.assignTo h.m_network h.m_address c.m_devices⟩,
   ⟨h.m_network, h.m_mask, h.m_address + c.m_devices.length⟩)

/-- The call `c.GetAddress(i)`. -/
def Ipv4InterfaceContainer.GetAddress (c : Ipv4InterfaceContainer) (i : Nat) :
    Outcome Nat :=
  match c.m_interfaces.get? i with
  | some e => Outcome.done e.2
  | none => Outcome.abort

/-- An `InetSocketAddress(ipv4, port)`. -/
structure InetSocketAddress where
  m_ipv4 : Nat
  m_port : Nat
deriving DecidableEq, Repr

/-- A UDP sink (`UdpServer`) on a node; the times are `none` until set. -/
structure UdpServer where
  node : Node
  m_port : Nat
  m_startTime : Option Time
  m_stopTime : Option Time
deriving DecidableEq, Repr

/-- The call `UdpServerHelper(port).Install(node)`: a container of one sink. -/
def UdpServerHelper.Install (port : Nat) (n : Node) : List UdpServer :=
  [⟨n, port, none, none⟩]

/-- The call `apps.Start(t)` on a container of sinks. -/
def UdpServer.Start (apps : List UdpServer) (t : Time) : List UdpServer :=
  apps.map (fun s => ⟨s.node, s.m_port, some t, s.m_stopTime⟩)

/-- The call `apps.Stop(t)` on a container of sinks. -/
def UdpServer.Stop (apps : List UdpServer) (t : Time) : List UdpServer :=
  apps.map (fun s => ⟨s.node, s.m_port, s.m_startTime, some t⟩)

/-- An `OnOffHelper`: the remote address and the attributes set on it; an
attribute the program does not set is `none` (left to the library). -/
structure OnOffHelper where
  protocol : String
  remote : InetSocketAddress
  PacketSize : Option Nat
  DataRate : Option String
  StartTime : Option Time
  StopTime : Option Time
deriving DecidableEq, Repr

/-- A traffic source (`OnOffApplication`) on a node, with the attributes of
the helper that installed it. -/
structure OnOffApplication where
  node : Node
  attributes : OnOffHelper
deriving DecidableEq, Repr

/-- The constructor `OnOffHelper(protocol, address)`. -/
def OnOffHelper.create (protocol : String) (remote : InetSocketAddress) : OnOffHelper :=
  ⟨protocol, remote, none, none, none, none⟩

/-- The call `onOffHelper.Install(node)`: a container of one source. -/
def OnOffHelper.Install (h : OnOffHelper) (n : Node) : List OnOffApplication :=
  [⟨n, h⟩]

/-- What a program has configured when it calls `Simulator::Run()`. -/
structure Config where
  RtsCtsThreshold : Nat
  nodes : List Node
  channelLoss : PropagationLoss
  devices : List NetDevice
  interfaces : List (NetDevice × Nat)
  sinks : List UdpServer
  sources : List OnOffApplication
  pcap : List (String × List Node)
  stopTime : Option Time
deriving DecidableEq, Repr

/-- Two ordered pairs name the same unordered pair of nodes. -/
def samePair (p q : Node × Node) : Prop :=
  p = q ∨ p = (q.2, q.1)

instance (p q : Node × Node) : Decidable (samePair p q) := by
  unfold samePair
  exact inferInstance

/-- The address assigned to the device of node `n`, if it has one. -/
def Config.addressOf (c : Config) (n : Node) : Option Nat :=
  (c.interfaces.find? (fun e => e.1.node = n)).map (fun e => e.2)

/-- Modelled from the spec: the threshold rule of the MAC contention engine,
which is library code outside the repository: RTS/CTS is used when "the
pending frame's payload exceeds the configured RTS threshold". -/
def usesRtsCts (RtsCtsThreshold payload : Nat) : Bool :=
  decide (RtsCtsThreshold < payload)

/-- The explicit pairwise loss matrix of the channel, if the program
configured one. -/
def Config.lossMatrix (c : Config) : Option MatrixPropagationLossModel :=
  match c.channelLoss with
  | PropagationLoss.matrix m => some m
  | PropagationLoss.helperDefault => none

/-- Why the activation of a flow fails. -/
inductive FlowError where
  | InvalidSchedule
deriving DecidableEq, Repr

deriving instance DecidableEq for Except

/-- Modelled from the spec: activation of a flow, which is library code
outside the repository: "a Flow becomes active at its configured start time
(fails with `InvalidSchedule` if start ≥ stop)".  Returns the active window
`(start, stop)`. -/
def activate (start stop : Time) : Except FlowError (Time × Time) :=
  if start ≥ stop then Except.error FlowError.InvalidSchedule else Except.ok (start, stop)

/-- The time window of a traffic source under a configuration: from its
`StartTime` (the start of the run when not set) to its `StopTime`, or to the
simulator stop time when the program sets no `StopTime`; `none` when the
program sets neither a `StopTime` nor a simulator stop time. -/
def Config.window (c : Config) (s : OnOffApplication) : Option (Time × Time) :=
  match s.attributes.StopTime, c.stopTime with
  | some stop, _ => some (s.attributes.StartTime.getD 0, stop)
  | none, some stop => some (s.attributes.StartTime.getD 0, stop)
  | none, none => none

/-- The 48-bit value of the MAC address `a:b:c:d:e:f`, each part one octet. -/
def Mac48Address (a b c d e f : Nat) : Nat :=
  a * 2 ^ 40 + b * 2 ^ 32 + c * 2 ^ 24 + d * 2 ^ 16 + e * 2 ^ 8 + f

/-- The last of the six octets of a MAC address. -/
def finalOctet (mac : Nat) : Nat :=
  mac % 256

/-- The four octets of a 32-bit address, first to last: `a.b.c.d` reads
`(a, b, c, d)`. -/
def octets (address : Nat) : Nat × Nat × Nat × Nat :=
  (address / 2 ^ 24 % 256, address / 2 ^ 16 % 256, address / 2 ^ 8 % 256, address % 256)

/-- The MAC address of the device of node `n`, if it has one. -/
def Config.macOf (c : Config) (n : Node) : Option Nat :=
  (c.devices.find? (fun d => d.node = n)).map (fun d => d.m_address)

/-- Apply a function to the value a run produces. -/
def Outcome.map {α β : Type} (f : α → β) : Outcome α → Outcome β
  | Outcome.done a => Outcome.done (f a)
  | Outcome.abort => Outcome.abort
  | Outcome.outOfFuel => Outcome.outOfFuel

end ns3

namespace problem1c

open ns3

/-- The objects `main` of problem1c builds: the four nodes `node_X.Get(0)`,
the loss matrix and the configuration handed to the simulator. -/
structure Run where
  A : Node
  a : Node
  B : Node
  b : Node
  propagationLoss : MatrixPropagationLossModel
  config : Config
deriving DecidableEq, Repr

/-- The function `main` of `Problem1/problem1c.cc`.  `initialDefault` and
`symmetric` stand for two facts of the loss-model declaration the repository
does not contain: the default loss of a fresh model and the value of the
fourth parameter of `SetLoss` when a call gives three arguments. -/
def main (initialDefault : Int) (symmetric : Bool) : Outcome Run := do
  -- RTS/CTS activation
  let ctsThreshold : Nat := 0
  -- create access point A and node a, access point B and node b
  let (node_A, created) := NodeContainer.Create 0 1
  let (node_a, created) := NodeContainer.Create created 1
  let (node_B, created) := NodeContainer.Create created 1
  let (node_b, _) := NodeContainer.Create created 1
  -- nodes do not change their positions
  let mobility : List Node := AggregateObject [] (← NodeContainer.Get node_A 0)
  let mobility : List Node := AggregateObject mobility (← NodeContainer.Get node_a 0)
  let mobility : List Node := AggregateObject mobility (← NodeContainer.Get node_B 0)
  let mobility : List Node := AggregateObject mobility (← NodeContainer.Get node_b 0)
  -- the propagation loss is fixed for each pair of nodes
  let propagationLoss : MatrixPropagationLossModel :=
    MatrixPropagationLossModel.CreateObject initialDefault
  let propagationLoss : MatrixPropagationLossModel :=
    MatrixPropagationLossModel.SetDefaultLoss propagationLoss 200
  let propagationLoss : MatrixPropagationLossModel :=
    MatrixPropagationLossModel.SetLoss propagationLoss
      (← GetObject mobility (← NodeContainer.Get node_a 0))
        (← GetObject mobility (← NodeContainer.Get node_A 0)) 0 symmetric
  let propagationLoss : MatrixPropagationLossModel :=
    MatrixPropagationLossModel.SetLoss propagationLoss
      (← GetObject mobility (← NodeContainer.Get node_b 0))
        (← GetObject mobility (← NodeContainer.Get node_B 0)) 0 symmetric
  let propagationLoss : MatrixPropagationLossModel :=
    MatrixPropagationLossModel.SetLoss propagationLoss
      (← GetObject mobility (← NodeContainer.Get node_a 0))
        (← GetObject mobility (← NodeContainer.Get node_b 0)) 0 symmetric
  -- create channel and phy
  let wifiChannel : PropagationLoss := PropagationLoss.matrix propagationLoss
  -- create net devices for Self and for Neighbor
  let wifiMacHelper : WifiMacHelper := WifiMacHelper.SetType WifiMacType.ApWifiMac "ssid_self" none
  let (device_A, allocated) := WifiHelper.Install 0 wifiMacHelper node_A
  let wifiMacHelper : WifiMacHelper :=
    WifiMacHelper.SetType WifiMacType.StaWifiMac "ssid_self" (some false)
  let (device_a, allocated) := WifiHelper.Install allocated wifiMacHelper node_a
  let wifiMacHelper : WifiMacHelper :=
    WifiMacHelper.SetType WifiMacType.ApWifiMac "ssid_neighbor" none
  let (device_B, allocated) := WifiHelper.Install allocated wifiMacHelper node_B
  let wifiMacHelper : WifiMacHelper :=
    WifiMacHelper.SetType WifiMacType.StaWifiMac "ssid_neighbor" (some false)
  let (device_b, _) := WifiHelper.Install allocated wifiMacHelper node_b
  -- assign IP addresses to Self and to Neighbor
  let ipv4AddressHelper : Ipv4AddressHelper :=
    Ipv4AddressHelper.SetBase (Ipv4Address 192 168 1 0) (Ipv4Address 255 255 255 0)
  let (interfaceContainer_A, ipv4AddressHelper) :=
    Ipv4AddressHelper.Assign ipv4AddressHelper device_A
  let (interfaceContainer_a, _) := Ipv4AddressHelper.Assign ipv4AddressHelper device_a
  let ipv4AddressHelper : Ipv4AddressHelper :=
    Ipv4AddressHelper.SetBase (Ipv4Address 192 168 2 0) (Ipv4Address 255 255 255 0)
  let (interfaceContainer_B, ipv4AddressHelper) :=
    Ipv4AddressHelper.Assign ipv4AddressHelper device_B
  let (interfaceContainer_b, _) := Ipv4AddressHelper.Assign ipv4AddressHelper device_b
  -- flow B->b (b: UDP server, B: UDP client)
  let udpAppl_Neighbor : List UdpServer :=
    UdpServerHelper.Install 55555 (← NodeContainer.Get node_b 0)
  let udpAppl_Neighbor : List UdpServer := UdpServer.Start udpAppl_Neighbor (Seconds 0 1)
  let udpAppl_Neighbor : List UdpServer := UdpServer.Stop udpAppl_Neighbor (Seconds 200 0)
  let onOffHelper_Neighbor : OnOffHelper := OnOffHelper.create "ns3::UdpSocketFactory"
    ⟨← Ipv4InterfaceContainer.GetAddress interfaceContainer_b 0, 55555⟩
  let onOffHelper_Neighbor : OnOffHelper := { onOffHelper_Neighbor with PacketSize := some 1024 }
  let onOffHelper_Neighbor : OnOffHelper := { onOffHelper_Neighbor with DataRate := some "11Mbps" }
  let onOffHelper_Neighbor : OnOffHelper :=
    { onOffHelper_Neighbor with StartTime := some (Seconds 0 2) }
  let application_Neighbor : List OnOffApplication :=
    [] ++ OnOffHelper.Install onOffHelper_Neighbor (← NodeContainer.Get node_B 0)
  -- flow a->A (A: UDP server, a: UDP client)
  let udpAppl_Self : List UdpServer := UdpServerHelper.Install 55555 (← NodeContainer.Get node_A 0)
  let udpAppl_Self : List UdpServer := UdpServer.Start udpAppl_Self (Seconds 0 1)
  let udpAppl_Self : List UdpServer := UdpServer.Stop udpAppl_Self (Seconds 200 0)
  let onOffHelper_Self : OnOffHelper := OnOffHelper.create "ns3::UdpSocketFactory"
    ⟨← Ipv4InterfaceContainer.GetAddress interfaceContainer_A 0, 55555⟩
  let onOffHelper_Self : OnOffHelper := { onOffHelper_Self with PacketSize := some 1024 }
  let onOffHelper_Self : OnOffHelper := { onOffHelper_Self with DataRate := some "11Mbps" }
  let onOffHelper_Self : OnOffHelper := { onOffHelper_Self with StartTime := some (Seconds 0 2) }
  let application_Self : List OnOffApplication :=
    [] ++ OnOffHelper.Install onOffHelper_Self (← NodeContainer.Get node_a 0)
  -- packet capture settings
  let pcap : List (String × List Node) :=
    [("1c_node_A", [← NodeContainer.Get node_A 0]), ("1c_node_a", [← NodeContainer.Get node_a 0]),
     ("1c_node_B", [← NodeContainer.Get node_B 0]), ("1c_node_b", [← NodeContainer.Get node_b 0])]
  -- simulator settings
  let stop : Time := Seconds 200 0
  pure
    { A := ← NodeContainer.Get node_A 0
      a := ← NodeContainer.Get node_a 0
      B := ← NodeContainer.Get node_B 0
      b := ← NodeContainer.Get node_b 0
      propagationLoss := propagationLoss
      config :=
        { RtsCtsThreshold := ctsThreshold
          nodes := node_A.m_nodes ++ node_a.m_nodes ++ node_B.m_nodes ++ node_b.m_nodes
          channelLoss := wifiChannel
          devices := device_A.m_devices ++ device_a.m_devices ++ device_B.m_devices
            ++ device_b.m_devices
          interfaces := interfaceContainer_A.m_interfaces ++ interfaceContainer_a.m_interfaces
            ++ interfaceContainer_B.m_interfaces ++ interfaceContainer_b.m_interfaces
          sinks := udpAppl_Neighbor ++ udpAppl_Self
          sources := application_Neighbor ++ application_Self
          pcap := pcap
          stopTime := some stop } }

/-- The ordered pairs `(x, y)` of the calls `SetLoss(x, y, 0)` of `main`, in
program order. -/
def setLossCalls (r : Run) : List (Node × Node) :=
  [(r.a, r.A), (r.b, r.B), (r.a, r.b)]

/-- The "Conflicting pairs" line of the header comment. -/
def conflictingPairs (r : Run) : List (Node × Node) :=
  [(r.A, r.a), (r.a, r.b), (r.b, r.B)]

/-- The "UDP data flow" line of the header comment, as (sender, receiver). -/
def headerFlows (r : Run) : List (Node × Node) :=
  [(r.a, r.A), (r.B, r.b)]

/-- The address table of the header comment: node, MAC address, IP
address. -/
def headerTable (r : Run) : List (Node × Nat × Nat) :=
  [(r.A, Mac48Address 0 0 0 0 0 1, Ipv4Address 192 168 1 1),
   (r.a, Mac48Address 0 0 0 0 0 2, Ipv4Address 192 168 1 2),
   (r.B, Mac48Address 0 0 0 0 0 3, Ipv4Address 192 168 2 1),
   (r.b, Mac48Address 0 0 0 0 0 4, Ipv4Address 192 168 2 2)]

end problem1c


namespace problem2

open ns3

/-- The objects `main` of problem2 builds: the six nodes `node_X.Get(0)`,
the loss matrix and the configuration handed to the simulator. -/
structure Run where
  A : Node
  a : Node
  B : Node
  b : Node
  C : Node
  c : Node
  propagationLoss : MatrixPropagationLossModel
  config : Config
deriving DecidableEq, Repr

/-- The function `main` of `Problem2/problem2.cc`; `initialDefault` and
`symmetric` are as in problem1c. -/
def main (initialDefault : Int) (symmetric : Bool) : Outcome Run := do
  -- RTS/CTS activation
  let ctsThreshold : Nat := 0
  -- create access points A, B, C and nodes a, b, c
  let (node_A, created) := NodeContainer.Create 0 1
  let (node_a, created) := NodeContainer.Create created 1
  let (node_B, created) := NodeContainer.Create created 1
  let (node_b, created) := NodeContainer.Create created 1
  let (node_C, created) := NodeContainer.Create created 1
  let (node_c, _) := NodeContainer.Create created 1
  -- nodes do not change their positions
  let mobility : List Node := AggregateObject [] (← NodeContainer.Get node_A 0)
  let mobility : List Node := AggregateObject mobility (← NodeContainer.Get node_a 0)
  let mobility : List Node := AggregateObject mobility (← NodeContainer.Get node_B 0)
  let mobility : List Node := AggregateObject mobility (← NodeContainer.Get node_b 0)
  let mobility : List Node := AggregateObject mobility (← NodeContainer.Get node_C 0)
  let mobility : List Node := AggregateObject mobility (← NodeContainer.Get node_c 0)
  -- the propagation loss is fixed for each pair of nodes
  let propagationLoss : MatrixPropagationLossModel :=
    MatrixPropagationLossModel.CreateObject initialDefault
  let propagationLoss : MatrixPropagationLossModel :=
    MatrixPropagationLossModel.SetDefaultLoss propagationLoss 200
  let propagationLoss : MatrixPropagationLossModel :=
    MatrixPropagationLossModel.SetLoss propagationLoss
      (← GetObject mobility (← NodeContainer.Get node_a 0))
        (← GetObject mobility (← NodeContainer.Get node_A 0)) 0 symmetric
  let propagationLoss : MatrixPropagationLossModel :=
    MatrixPropagationLossModel.SetLoss propagationLoss
      (← GetObject mobility (← NodeContainer.Get node_b 0))
        (← GetObject mobility (← NodeContainer.Get node_B 0)) 0 symmetric
  let propagationLoss : MatrixPropagationLossModel :=
    MatrixPropagationLossModel.SetLoss propagationLoss
      (← GetObject mobility (← NodeContainer.Get node_c 0))
        (← GetObject mobility (← NodeContainer.Get node_C 0)) 0 symmetric
  let propagationLoss : MatrixPropagationLossModel :=
    MatrixPropagationLossModel.SetLoss propagationLoss
      (← GetObject mobility (← NodeContainer.Get node_a 0))
        (← GetObject mobility (← NodeContainer.Get node_b 0)) 0 symmetric
  let propagationLoss : MatrixPropagationLossModel :=
    MatrixPropagationLossModel.SetLoss propagationLoss
      (← GetObject mobility (← NodeContainer.Get node_b 0))
        (← GetObject mobility (← NodeContainer.Get node_c 0)) 0 symmetric
  let propagationLoss : MatrixPropagationLossModel :=
    MatrixPropagationLossModel.SetLoss propagationLoss
      (← GetObject mobility (← NodeContainer.Get node_A 0))
        (← GetObject mobility (← NodeContainer.Get node_B 0)) 0 symmetric
  let propagationLoss : MatrixPropagationLossModel :=
    MatrixPropagationLossModel.SetLoss propagationLoss
      (← GetObject mobility (← NodeContainer.Get node_B 0))
        (← GetObject mobility (← NodeContainer.Get node_C 0)) 0 symmetric
  let propagationLoss : MatrixPropagationLossModel :=
    MatrixPropagationLossModel.SetLoss propagationLoss
      (← GetObject mobility (← NodeContainer.Get node_a 0))
        (← GetObject mobility (← NodeContainer.Get node_B 0)) 0 symmetric
  let propagationLoss : MatrixPropagationLossModel :=
    MatrixPropagationLossModel.SetLoss propagationLoss
      (← GetObject mobility (← NodeContainer.Get node_A 0))
        (← GetObject mobility (← NodeContainer.Get node_b 0)) 0 symmetric
  let propagationLoss : MatrixPropagationLossModel :=
    MatrixPropagationLossModel.SetLoss propagationLoss
      (← GetObject mobility (← NodeContainer.Get node_b 0))
        (← GetObject mobility (← NodeContainer.Get node_C 0)) 0 symmetric
  let propagationLoss : MatrixPropagationLossModel :=
    MatrixPropagationLossModel.SetLoss propagationLoss
      (← GetObject mobility (← NodeContainer.Get node_B 0))
        (← GetObject mobility (← NodeContainer.Get node_c 0)) 0 symmetric
  -- create channel and phy
  let wifiChannel : PropagationLoss := PropagationLoss.matrix propagationLoss
  -- create net devices for Self, for Neighbor and for Friend
  let wifiMacHelper : WifiMacHelper := WifiMacHelper.SetType WifiMacType.ApWifiMac "ssid_self" none
  let (device_A, allocated) := WifiHelper.Install 0 wifiMacHelper node_A
  let wifiMacHelper : WifiMacHelper :=
    WifiMacHelper.SetType WifiMacType.StaWifiMac "ssid_self" (some false)
  let (device_a, allocated) := WifiHelper.Install allocated wifiMacHelper node_a
  let wifiMacHelper : WifiMacHelper :=
    WifiMacHelper.SetType WifiMacType.ApWifiMac "ssid_neighbor" none
  let (device_B, allocated) := WifiHelper.Install allocated wifiMacHelper node_B
  let wifiMacHelper : WifiMacHelper :=
    WifiMacHelper.SetType WifiMacType.StaWifiMac "ssid_neighbor" (some false)
  let (device_b, allocated) := WifiHelper.Install allocated wifiMacHelper node_b
  let wifiMacHelper : WifiMacHelper :=
    WifiMacHelper.SetType WifiMacType.ApWifiMac "ssid_friend" none
  let (device_C, allocated) := WifiHelper.Install allocated wifiMacHelper node_C
  let wifiMacHelper : WifiMacHelper :=
    WifiMacHelper.SetType WifiMacType.StaWifiMac "ssid_friend" (some false)
  let (device_c, _) := WifiHelper.Install allocated wifiMacHelper node_c
  -- assign IP addresses to Self, to Neighbor and to Friend
  let ipv4AddressHelper : Ipv4AddressHelper :=
    Ipv4AddressHelper.SetBase (Ipv4Address 192 168 1 0) (Ipv4Address 255 255 255 0)
  let (interfaceContainer_A, ipv4AddressHelper) :=
    Ipv4AddressHelper.Assign ipv4AddressHelper device_A
  let (interfaceContainer_a, _) := Ipv4AddressHelper.Assign ipv4AddressHelper device_a
  let ipv4AddressHelper : Ipv4AddressHelper :=
    Ipv4AddressHelper.SetBase (Ipv4Address 192 168 2 0) (Ipv4Address 255 255 255 0)
  let (interfaceContainer_B, ipv4AddressHelper) :=
    Ipv4AddressHelper.Assign ipv4AddressHelper device_B
  let (interfaceContainer_b, _) := Ipv4AddressHelper.Assign ipv4AddressHelper device_b
  let ipv4AddressHelper : Ipv4AddressHelper :=
    Ipv4AddressHelper.SetBase (Ipv4Address 192 168 3 0) (Ipv4Address 255 255 255 0)
  let (interfaceContainer_C, ipv4AddressHelper) :=
    Ipv4AddressHelper.Assign ipv4AddressHelper device_C
  let (interfaceContainer_c, _) := Ipv4AddressHelper.Assign ipv4AddressHelper device_c
  -- flow B->b (b: UDP server, B: UDP client)
  let udpAppl_Neighbor : List UdpServer :=
    UdpServerHelper.Install 55555 (← NodeContainer.Get node_b 0)
  let udpAppl_Neighbor : List UdpServer := UdpServer.Start udpAppl_Neighbor (Seconds 0 1)
  let udpAppl_Neighbor : List UdpServer := UdpServer.Stop udpAppl_Neighbor (Seconds 200 0)
  let onOffHelper_Neighbor : OnOffHelper := OnOffHelper.create "ns3::UdpSocketFactory"
    ⟨← Ipv4InterfaceContainer.GetAddress interfaceContainer_b 0, 55555⟩
  let onOffHelper_Neighbor : OnOffHelper := { onOffHelper_Neighbor with PacketSize := some 1024 }
  let onOffHelper_Neighbor : OnOffHelper := { onOffHelper_Neighbor with DataRate := some "11Mbps" }
  let onOffHelper_Neighbor : OnOffHelper :=
    { onOffHelper_Neighbor with StartTime := some (Seconds 0 2) }
  let application_Neighbor : List OnOffApplication :=
    [] ++ OnOffHelper.Install onOffHelper_Neighbor (← NodeContainer.Get node_B 0)
  -- flow A->a (a: UDP server, A: UDP client)
  let udpAppl_Self : List UdpServer := UdpServerHelper.Install 55555 (← NodeContainer.Get node_a 0)
  let udpAppl_Self : List UdpServer := UdpServer.Start udpAppl_Self (Seconds 0 1)
  let udpAppl_Self : List UdpServer := UdpServer.Stop udpAppl_Self (Seconds 200 0)
  let onOffHelper_Self : OnOffHelper := OnOffHelper.create "ns3::UdpSocketFactory"
    ⟨← Ipv4InterfaceContainer.GetAddress interfaceContainer_a 0, 55555⟩
  let onOffHelper_Self : OnOffHelper := { onOffHelper_Self with PacketSize := some 1024 }
  let onOffHelper_Self : OnOffHelper := { onOffHelper_Self with DataRate := some "11Mbps" }
  let onOffHelper_Self : OnOffHelper := { onOffHelper_Self with StartTime := some (Seconds 0 2) }
  let application_Self : List OnOffApplication :=
    [] ++ OnOffHelper.Install onOffHelper_Self (← NodeContainer.Get node_A 0)
  -- flow C->c (c: UDP server, C: UDP client)
  let udpAppl_Friend : List UdpServer :=
    UdpServerHelper.Install 55555 (← NodeContainer.Get node_c 0)
  let udpAppl_Friend : List UdpServer := UdpServer.Start udpAppl_Friend (Seconds 0 1)
  let udpAppl_Friend : List UdpServer := UdpServer.Stop udpAppl_Friend (Seconds 200 0)
  let onOffHelper_Friend : OnOffHelper := OnOffHelper.create "ns3::UdpSocketFactory"
    ⟨← Ipv4InterfaceContainer.GetAddress interfaceContainer_c 0, 55555⟩
  let onOffHelper_Friend : OnOffHelper := { onOffHelper_Friend with PacketSize := some 1024 }
  let onOffHelper_Friend : OnOffHelper := { onOffHelper_Friend with DataRate := some "11Mbps" }
  let onOffHelper_Friend : OnOffHelper :=
    { onOffHelper_Friend with StartTime := some (Seconds 0 2) }
  let application_Friend : List OnOffApplication :=
    [] ++ OnOffHelper.Install onOffHelper_Friend (← NodeContainer.Get node_C 0)
  -- packet capture settings
  let pcap : List (String × List Node) :=
    [("2_node_A", [← NodeContainer.Get node_A 0]), ("2_node_a", [← NodeContainer.Get node_a 0]),
     ("2_node_B", [← NodeContainer.Get node_B 0]), ("2_node_b", [← NodeContainer.Get node_b 0]),
     ("2_node_C", [← NodeContainer.Get node_C 0]), ("2_node_c", [← NodeContainer.Get node_c 0])]
  -- simulator settings
  let stop : Time := Seconds 200 0
  pure
    { A := ← NodeContainer.Get node_A 0
      a := ← NodeContainer.Get node_a 0
      B := ← NodeContainer.Get node_B 0
      b := ← NodeContainer.Get node_b 0
      C := ← NodeContainer.Get node_C 0
      c := ← NodeContainer.Get node_c 0
      propagationLoss := propagationLoss
      config :=
        { RtsCtsThreshold := ctsThreshold
          nodes := node_A.m_nodes ++ node_a.m_nodes ++ node_B.m_nodes ++ node_b.m_nodes
            ++ node_C.m_nodes ++ node_c.m_nodes
          channelLoss := wifiChannel
          devices := device_A.m_devices ++ device_a.m_devices ++ device_B.m_devices
            ++ device_b.m_devices ++ device_C.m_devices ++ device_c.m_devices
          interfaces := interfaceContainer_A.m_interfaces ++ interfaceContainer_a.m_interfaces
            ++ interfaceContainer_B.m_interfaces ++ interfaceContainer_b.m_interfaces
            ++ interfaceContainer_C.m_interfaces ++ interfaceContainer_c.m_interfaces
          sinks := udpAppl_Neighbor ++ udpAppl_Self ++ udpAppl_Friend
          sources := application_Neighbor ++ application_Self ++ application_Friend
          pcap := pcap
          stopTime := some stop } }

/-- The ordered pairs `(x, y)` of the calls `SetLoss(x, y, 0)` of `main`, in
program order. -/
def setLossCalls (r : Run) : List (Node × Node) :=
  [(r.a, r.A), (r.b, r.B), (r.c, r.C), (r.a, r.b), (r.b, r.c), (r.A, r.B), (r.B, r.C),
   (r.a, r.B), (r.A, r.b), (r.b, r.C), (r.B, r.c)]

/-- The "Conflicting pairs" lines of the header comment. -/
def conflictingPairs (r : Run) : List (Node × Node) :=
  [(r.a, r.A), (r.b, r.B), (r.c, r.C),
   (r.a, r.b), (r.b, r.c),
   (r.A, r.B), (r.B, r.C),
   (r.a, r.B), (r.A, r.b), (r.b, r.C), (r.B, r.c)]

/-- The "UDP data flow" line of the header comment, as (sender, receiver). -/
def headerFlows (r : Run) : List (Node × Node) :=
  [(r.A, r.a), (r.B, r.b), (r.C, r.c)]

/-- The address table of the header comment: node, MAC address, IP
address. -/
def headerTable (r : Run) : List (Node × Nat × Nat) :=
  [(r.A, Mac48Address 0 0 0 0 0 1, Ipv4Address 192 168 1 1),
   (r.a, Mac48Address 0 0 0 0 0 2, Ipv4Address 192 168 1 2),
   (r.B, Mac48Address 0 0 0 0 0 3, Ipv4Address 192 168 2 1),
   (r.b, Mac48Address 0 0 0 0 0 4, Ipv4Address 192 168 2 2),
   (r.C, Mac48Address 0 0 0 0 0 5, Ipv4Address 192 168 3 1),
   (r.c, Mac48Address 0 0 0 0 0 6, Ipv4Address 192 168 3 2)]

end problem2

namespace problem3a

open ns3

/-- The objects `main` of problem3a builds: both node containers, the log
components switched on, the final value of `counter`, the three capture
directory names and the configuration handed to the simulator. -/
structure Run where
  wifiApNode : NodeContainer
  wifiStaNodes : NodeContainer
  logging : List String
  counter : Nat
  dir : String
  accessPointDir : String
  stationDir : String
  config : Config
deriving DecidableEq, Repr

/-- The text `sprintf` writes for `%d` given the 32-bit value `n`: the
decimal form of `n` read as a signed 32-bit integer. -/
def format_d (n : Nat) : String :=
  if n < 2 ^ 31 then toString n else toString ((n : Int) - 2 ^ 32)

/-- The loop `for (counter = 0; counter < nWifi; counter++)` of `main`, from
the given value of `counter` on: each round installs a source on
`wifiStaNodes.Get(counter)` and adds it to `application`; `counter` is a
`uint32_t`.  Returns the final `counter` and `application`. -/
def installLoop (onOffHelper : OnOffHelper) (wifiStaNodes : NodeContainer) (nWifi : Nat) :
    Nat → Nat → List OnOffApplication → Outcome (Nat × List OnOffApplication)
  | 0, _, _ => Outcome.outOfFuel
  | fuel + 1, counter, application =>
      if counter < nWifi then do
        let application : List OnOffApplication :=
          application ++ OnOffHelper.Install onOffHelper (← NodeContainer.Get wifiStaNodes counter)
        installLoop onOffHelper wifiStaNodes nWifi fuel ((counter + 1) % 2 ^ 32) application
      else
        pure (counter, application)

/-- The function `main` of `Problem3/problem3a.cc`, for the command-line
values `verbose` and `nWifi` (a `uint32_t`); `fuel` bounds the number of
loop tests. -/
def main (fuel : Nat) (verbose : Bool) (nWifi : Nat) : Outcome Run := do
  let counter : Nat := 0
  let logging : List String :=
    if verbose then ["UdpEchoClientApplication", "UdpEchoServerApplication"] else []
  -- RTS/CTS activation
  let ctsThreshold : Nat := 0
  -- create access point and nodes
  let (wifiApNode, created) := NodeContainer.Create 0 1
  let (wifiStaNodes, _) := NodeContainer.Create created nWifi
  -- create wifi channel and phy
  let channel : PropagationLoss := PropagationLoss.helperDefault
  -- create net devices for access point and nodes
  let wifiMacHelper : WifiMacHelper := WifiMacHelper.SetType WifiMacType.ApWifiMac "ssid_3a" none
  let (apDevices, allocated) := WifiHelper.Install 0 wifiMacHelper wifiApNode
  let wifiMacHelper : WifiMacHelper :=
    WifiMacHelper.SetType WifiMacType.StaWifiMac "ssid_3a" (some false)
  let (staDevices, _) := WifiHelper.Install allocated wifiMacHelper wifiStaNodes
  -- assign IP addresses to access point and nodes
  let ipv4AddressHelper : Ipv4AddressHelper :=
    Ipv4AddressHelper.SetBase (Ipv4Address 192 168 1 0) (Ipv4Address 255 255 255 0)
  let (interfaceContainer_ap, ipv4AddressHelper) :=
    Ipv4AddressHelper.Assign ipv4AddressHelper apDevices
  let (interfaceContainer_sta, _) := Ipv4AddressHelper.Assign ipv4AddressHelper staDevices
  -- UDP flows: individual nodes -> access point
  let udpAppl : List UdpServer := UdpServerHelper.Install 55555 (← NodeContainer.Get wifiApNode 0)
  let udpAppl : List UdpServer := UdpServer.Start udpAppl (Seconds 0 1)
  let udpAppl : List UdpServer := UdpServer.Stop udpAppl (Seconds 500 0)
  let onOffHelper : OnOffHelper := OnOffHelper.create "ns3::UdpSocketFactory"
    ⟨← Ipv4InterfaceContainer.GetAddress interfaceContainer_ap 0, 55555⟩
  let onOffHelper : OnOffHelper := { onOffHelper with PacketSize := some 1024 }
  let onOffHelper : OnOffHelper := { onOffHelper with DataRate := some "11Mbps" }
  let onOffHelper : OnOffHelper := { onOffHelper with StartTime := some (Seconds 0 2) }
  let (counter, application) ← installLoop onOffHelper wifiStaNodes nWifi fuel counter []
  -- simulator stop time
  let stop : Time := Seconds 500 0
  let dir : String := "PacketCapture/Problem3a/" ++ format_d nWifi
  let accessPointDir : String := dir ++ "/AccessPoint"
  let stationDir : String := dir ++ "/Stations"
  -- packet capture settings
  let pcap : List (String × List Node) :=
    [(accessPointDir, apDevices.m_devices.map (fun d => d.node)),
     (stationDir, staDevices.m_devices.map (fun d => d.node))]
  pure
    { wifiApNode := wifiApNode
      wifiStaNodes := wifiStaNodes
      logging := logging
      counter := counter
      dir := dir
      accessPointDir := accessPointDir
      stationDir := stationDir
      config :=
        { RtsCtsThreshold := ctsThreshold
          nodes := wifiApNode.m_nodes ++ wifiStaNodes.m_nodes
          channelLoss := channel
          devices := apDevices.m_devices ++ staDevices.m_devices
          interfaces := interfaceContainer_ap.m_interfaces ++ interfaceContainer_sta.m_interfaces
          sinks := udpAppl
          sources := application
          pcap := pcap
          stopTime := some stop } }

/-- The source every station gets: the helper of `main` after its three
`SetAttribute` calls, addressed to `192.168.1.1` port 55555. -/
def stationSource : OnOffHelper :=
  { protocol := "ns3::UdpSocketFactory"
    remote := ⟨Ipv4Address 192 168 1 1, 55555⟩
    PacketSize := some 1024
    DataRate := some "11Mbps"
    StartTime := some (Seconds 0 2)
    StopTime := none }

/-- The run `main` ends with for the inputs `verbose` and `nWifi`, written
without the loop: node 0 is the access point, nodes `1 .. nWifi` are the
stations, and station `i` (counting from 0) carries one source. -/
def finalRun (verbose : Bool) (nWifi : Nat) : Run :=
  let apDevices : List NetDevice :=
    [⟨0, 1, WifiMacHelper.SetType WifiMacType.ApWifiMac "ssid_3a" none⟩]
  let staDevices : List NetDevice :=
    WifiHelper.installOn (WifiMacHelper.SetType WifiMacType.StaWifiMac "ssid_3a" (some false))
      1 (List.range' 1 nWifi)
  { wifiApNode := ⟨[0]⟩
    wifiStaNodes := ⟨List.range' 1 nWifi⟩
    logging := if verbose then ["UdpEchoClientApplication", "UdpEchoServerApplication"] else []
    counter := nWifi
    dir := "PacketCapture/Problem3a/" ++ format_d nWifi
    accessPointDir := "PacketCapture/Problem3a/" ++ format_d nWifi ++ "/AccessPoint"
    stationDir := "PacketCapture/Problem3a/" ++ format_d nWifi ++ "/Stations"
    config :=
      { RtsCtsThreshold := 0
        nodes := 0 :: List.range' 1 nWifi
        channelLoss := PropagationLoss.helperDefault
        devices := apDevices ++ staDevices
        interfaces :=
          (⟨0, 1, WifiMacHelper.SetType WifiMacType.ApWifiMac "ssid_3a" none⟩,
            Ipv4Address 192 168 1 1)
          :: Ipv4AddressHelper.assignTo (Ipv4Address 192 168 1 0) 2 staDevices
        sinks := [⟨0, 55555, some (Seconds 0 1), some (Seconds 500 0)⟩]
        sources := (List.range' 0 nWifi).map (fun i => ⟨1 + i, stationSource⟩)
        pcap := [("PacketCapture/Problem3a/" ++ format_d nWifi ++ "/AccessPoint", [0]),
          ("PacketCapture/Problem3a/" ++ format_d nWifi ++ "/Stations",
            staDevices.map (fun d => d.node))]
        stopTime := some (Seconds 500 0) } }

/-- What a run of `main` has configured, leaving out the log components
switched on: the node containers, the final `counter`, the capture directory
names and the configuration handed to the simulator. -/
def Run.configured (r : Run) :
    NodeContainer × NodeContainer × Nat × String × String × String × Config :=
  (r.wifiApNode, r.wifiStaNodes, r.counter, r.dir, r.accessPointDir, r.stationDir, r.config)

end problem3a



/-! ## Facts about the loss model -/

open ns3

/-- The loss applied to a pair is the default loss or the value of one of the
explicit entries. -/
theorem ns3.MatrixPropagationLossModel.GetLoss_default_or_entry
    (m : MatrixPropagationLossModel) (a b : Node) :
    m.GetLoss a b = m.m_default ∨ ∃ e ∈ m.m_loss, e.2 = m.GetLoss a b := by
  unfold MatrixPropagationLossModel.GetLoss MatrixPropagationLossModel.entry
  cases h : m.m_loss.find? (fun e => e.1 = (a, b)) with
  | none => left; rfl
  | some e => right; exact ⟨e, List.mem_of_find?_eq_some h, rfl⟩

/-- When every explicit entry is 0, every ordered pair gets 0 or the default
loss. -/
theorem ns3.MatrixPropagationLossModel.GetLoss_zero_or_default
    (m : MatrixPropagationLossModel) (d : Int) (hd : m.m_default = d)
    (hz : ∀ e ∈ m.m_loss, e.2 = 0) (a b : Node) :
    m.GetLoss a b = 0 ∨ m.GetLoss a b = d := by
  rcases m.GetLoss_default_or_entry a b with h | ⟨e, he, h⟩
  · right; rw [h, hd]
  · left; rw [← h]; exact hz e he

/-- The default loss a fresh model starts with plays no part in problem1c:
`SetDefaultLoss(200)` replaces it. -/
theorem problem1c.initialDefault_unused_1c (initialDefault : Int) (symmetric : Bool) :
    problem1c.main initialDefault symmetric = problem1c.main 0 symmetric := by
  cases symmetric <;> rfl

/-- The default loss a fresh model starts with plays no part in problem2:
`SetDefaultLoss(200)` replaces it. -/
theorem problem2.initialDefault_unused_2 (initialDefault : Int) (symmetric : Bool) :
    problem2.main initialDefault symmetric = problem2.main 0 symmetric := by
  cases symmetric <;> rfl

/-- With `SetLoss` recording one direction only, the matrix of problem1c is
not symmetric: the call `SetLoss(a, A, 0)` leaves the loss from `A` to `a` at
the default. -/
theorem problem1c.directed_not_symmetric (initialDefault : Int) :
    ∃ r, problem1c.main initialDefault false = Outcome.done r ∧
      r.propagationLoss.GetLoss r.a r.A = 0 ∧ r.propagationLoss.GetLoss r.A r.a = 200 := by
  rw [problem1c.initialDefault_unused_1c]
  exact ⟨_, rfl, by decide⟩

/-! ## Facts about problem3a -/

/-- A step that is `done` hands its value to the rest of the program. -/
theorem ns3.Outcome.done_bind {α β : Type} (a : α) (f : α → Outcome β) :
    (Outcome.done a >>= f) = f a := rfl

/-- Returning a value is `done`. -/
theorem ns3.Outcome.pure_eq {α : Type} (a : α) : (pure a : Outcome α) = Outcome.done a := rfl

/-- In a container of the nodes `s, s+1, ..., s+n-1`, `Get(i)` is `s + i`. -/
theorem ns3.NodeContainer.Get_range' (s n i : Nat) (h : i < n) :
    NodeContainer.Get ⟨List.range' s n⟩ i = Outcome.done (s + i) := by
  simp [NodeContainer.Get, List.getElem?_range', h]

/-- The devices installed on a list of nodes sit on those nodes, in order,
each with the MAC type of the helper. -/
theorem ns3.WifiHelper.installOn_map (mac : WifiMacHelper) (allocated : Nat) (l : List Node) :
    (WifiHelper.installOn mac allocated l).map (fun d => (d.node, d.mac.type)) =
      l.map (fun n => (n, mac.type)) := by
  induction l generalizing allocated with
  | nil => rfl
  | cons n rest ih => simp [WifiHelper.installOn, ih]

/-- The loop of problem3a ends, for every `nWifi` a `uint32_t` can hold, once
the fuel exceeds the number of rounds left; `counter` ends at `nWifi` and one
source was added for each station from `counter` on. -/
theorem problem3a.installLoop_done (h : OnOffHelper) (nWifi : Nat) (hn : nWifi < 2 ^ 32) :
    ∀ (fuel counter : Nat) (application : List OnOffApplication),
      counter ≤ nWifi → nWifi - counter < fuel →
      problem3a.installLoop h ⟨List.range' 1 nWifi⟩ nWifi fuel counter application =
        Outcome.done (nWifi, application ++
          (List.range' counter (nWifi - counter)).map (fun i => ⟨1 + i, h⟩)) := by
  intro fuel
  induction fuel with
  | zero => intro c a _ h; omega
  | succ fuel ih =>
    intro counter application hc hf
    unfold problem3a.installLoop
    by_cases hlt : counter < nWifi
    · have hmod : (counter + 1) % 2 ^ 32 = counter + 1 := Nat.mod_eq_of_lt (by omega)
      have hlen : nWifi - counter = (nWifi - (counter + 1)) + 1 := by omega
      simp only [hlt, if_true, NodeContainer.Get_range' 1 nWifi counter hlt,
        Outcome.done_bind, hmod]
      rw [ih (counter + 1) _ (by omega) (by omega), hlen, List.range'_succ]
      simp [OnOffHelper.Install]
    · have hcn : counter = nWifi := by omega
      subst hcn
      simp [Outcome.pure_eq]

/-- For every `nWifi` a `uint32_t` can hold and enough fuel, `main` of
problem3a ends with `finalRun`. -/
theorem problem3a.main_eq (fuel : Nat) (verbose : Bool) (nWifi : Nat)
    (hn : nWifi < 2 ^ 32) (hf : nWifi < fuel) :
    problem3a.main fuel verbose nWifi = Outcome.done (problem3a.finalRun verbose nWifi) := by
  have h1 : NodeContainer.Get ⟨List.range' 0 1⟩ 0 = Outcome.done 0 := rfl
  have h2 : Ipv4InterfaceContainer.GetAddress
      ((Ipv4AddressHelper.SetBase (Ipv4Address 192 168 1 0) (Ipv4Address 255 255 255 0)).Assign
        (WifiHelper.Install 0 (WifiMacHelper.SetType WifiMacType.ApWifiMac "ssid_3a" none)
          ⟨List.range' 0 1⟩).1).1 0 = Outcome.done (Ipv4Address 192 168 1 1) := by decide
  unfold problem3a.main
  simp only [NodeContainer.Create, Nat.zero_add, h1, h2, Outcome.done_bind]
  rw [problem3a.installLoop_done _ nWifi hn fuel 0 [] (Nat.zero_le _) (by omega)]
  rfl

/-! ## The claims -/

/-- C1: in problem1c and in problem2 the loss matrix is the one built by
`SetDefaultLoss(200)` followed by the `SetLoss` calls; it gives 0 dB
(Reachable) for the pair of every `SetLoss` call (in the direction of the
call whatever `symmetric` is, and in the reverse direction too when
`symmetric` holds), the default 200 dB (Unreachable) for every pair of
distinct nodes that no call names, among them `{A,B}`, `{A,b}`, `{a,B}` in
problem1c and `{a,c}`, `{A,C}`, `{a,C}`, `{A,c}` in problem2; every explicit
entry is 0, and every ordered pair gets 0 or 200. -/
theorem C1_loss_matrix_default_total (initialDefault : Int) (symmetric : Bool) :
    (∃ r, problem1c.main initialDefault symmetric = Outcome.done r ∧
      r.propagationLoss = (problem1c.setLossCalls r).foldl
        (fun m p => m.SetLoss p.1 p.2 0 symmetric)
        ((MatrixPropagationLossModel.CreateObject initialDefault).SetDefaultLoss 200) ∧
      r.config.channelLoss = PropagationLoss.matrix r.propagationLoss ∧
      (∀ p ∈ problem1c.setLossCalls r,
        r.propagationLoss.GetLoss p.1 p.2 = 0 ∧
        r.propagationLoss.query p.1 p.2 = LossOutcome.Reachable 0 ∧
        (symmetric = true → r.propagationLoss.GetLoss p.2 p.1 = 0 ∧
          r.propagationLoss.query p.2 p.1 = LossOutcome.Reachable 0)) ∧
      (∀ x ∈ r.config.nodes, ∀ y ∈ r.config.nodes, x ≠ y →
        (x, y) ∉ problem1c.setLossCalls r → (y, x) ∉ problem1c.setLossCalls r →
        r.propagationLoss.GetLoss x y = 200 ∧
        r.propagationLoss.query x y = LossOutcome.Unreachable) ∧
      (∀ p ∈ [(r.A, r.B), (r.B, r.A), (r.A, r.b), (r.b, r.A), (r.a, r.B), (r.B, r.a)],
        r.propagationLoss.GetLoss p.1 p.2 = 200 ∧
        r.propagationLoss.query p.1 p.2 = LossOutcome.Unreachable) ∧
      (∀ e ∈ r.propagationLoss.m_loss, e.2 = 0) ∧
      (∀ x y : Node, r.propagationLoss.GetLoss x y = 0 ∨ r.propagationLoss.GetLoss x y = 200)) ∧
    (∃ r, problem2.main initialDefault symmetric = Outcome.done r ∧
      r.propagationLoss = (problem2.setLossCalls r).foldl
        (fun m p => m.SetLoss p.1 p.2 0 symmetric)
        ((MatrixPropagationLossModel.CreateObject initialDefault).SetDefaultLoss 200) ∧
      r.config.channelLoss = PropagationLoss.matrix r.propagationLoss ∧
      (∀ p ∈ problem2.setLossCalls r,
        r.propagationLoss.GetLoss p.1 p.2 = 0 ∧
        r.propagationLoss.query p.1 p.2 = LossOutcome.Reachable 0 ∧
        (symmetric = true → r.propagationLoss.GetLoss p.2 p.1 = 0 ∧
          r.propagationLoss.query p.2 p.1 = LossOutcome.Reachable 0)) ∧
      (∀ x ∈ r.config.nodes, ∀ y ∈ r.config.nodes, x ≠ y →
        (x, y) ∉ problem2.setLossCalls r → (y, x) ∉ problem2.setLossCalls r →
        r.propagationLoss.GetLoss x y = 200 ∧
        r.propagationLoss.query x y = LossOutcome.Unreachable) ∧
      (∀ p ∈ [(r.a, r.c), (r.c, r.a), (r.A, r.C), (r.C, r.A), (r.a, r.C), (r.C, r.a),
          (r.A, r.c), (r.c, r.A)],
        r.propagationLoss.GetLoss p.1 p.2 = 200 ∧
        r.propagationLoss.query p.1 p.2 = LossOutcome.Unreachable) ∧
      (∀ e ∈ r.propagationLoss.m_loss, e.2 = 0) ∧
      (∀ x y : Node, r.propagationLoss.GetLoss x y = 0 ∨ r.propagationLoss.GetLoss x y = 200)) := by
  rw [problem1c.initialDefault_unused_1c, problem2.initialDefault_unused_2]
  constructor <;> cases symmetric <;>
    exact ⟨_, rfl, rfl, rfl, by decide, by decide, by decide, by decide,
      MatrixPropagationLossModel.GetLoss_zero_or_default _ 200 rfl (by decide)⟩

/-- C2: in problem1c and in problem2 the unordered pairs named by the
`SetLoss` calls are exactly the "Conflicting pairs" of the header comment:
every call names a listed pair, every listed pair is named by a call, no
pair is named by two calls (three calls and three pairs in problem1c, eleven
and eleven in problem2), and in the matrix the calls build a pair of nodes
has a 0 dB entry in one direction or the other exactly when it is listed. -/
theorem C2_setloss_pairs_match_header (initialDefault : Int) (symmetric : Bool) :
    (∃ r, problem1c.main initialDefault symmetric = Outcome.done r ∧
      r.propagationLoss = (problem1c.setLossCalls r).foldl
        (fun m p => m.SetLoss p.1 p.2 0 symmetric)
        ((MatrixPropagationLossModel.CreateObject initialDefault).SetDefaultLoss 200) ∧
      (∀ p ∈ problem1c.setLossCalls r, ∃ q ∈ problem1c.conflictingPairs r, samePair p q) ∧
      (∀ q ∈ problem1c.conflictingPairs r, ∃ p ∈ problem1c.setLossCalls r, samePair p q) ∧
      (problem1c.setLossCalls r).Pairwise (fun p q => ¬ samePair p q) ∧
      (problem1c.conflictingPairs r).Pairwise (fun p q => ¬ samePair p q) ∧
      (problem1c.setLossCalls r).length = 3 ∧ (problem1c.conflictingPairs r).length = 3 ∧
      (∀ x ∈ r.config.nodes, ∀ y ∈ r.config.nodes,
        (r.propagationLoss.entry x y = some 0 ∨ r.propagationLoss.entry y x = some 0) ↔
          ∃ q ∈ problem1c.conflictingPairs r, samePair (x, y) q)) ∧
    (∃ r, problem2.main initialDefault symmetric = Outcome.done r ∧
      r.propagationLoss = (problem2.setLossCalls r).foldl
        (fun m p => m.SetLoss p.1 p.2 0 symmetric)
        ((MatrixPropagationLossModel.CreateObject initialDefault).SetDefaultLoss 200) ∧
      (∀ p ∈ problem2.setLossCalls r, ∃ q ∈ problem2.conflictingPairs r, samePair p q) ∧
      (∀ q ∈ problem2.conflictingPairs r, ∃ p ∈ problem2.setLossCalls r, samePair p q) ∧
      (problem2.setLossCalls r).Pairwise (fun p q => ¬ samePair p q) ∧
      (problem2.conflictingPairs r).Pairwise (fun p q => ¬ samePair p q) ∧
      (problem2.setLossCalls r).length = 11 ∧ (problem2.conflictingPairs r).length = 11 ∧
      (∀ x ∈ r.config.nodes, ∀ y ∈ r.config.nodes,
        (r.propagationLoss.entry x y = some 0 ∨ r.propagationLoss.entry y x = some 0) ↔
          ∃ q ∈ problem2.conflictingPairs r, samePair (x, y) q)) := by
  rw [problem1c.initialDefault_unused_1c, problem2.initialDefault_unused_2]
  constructor <;> cases symmetric <;>
    exact ⟨_, rfl, rfl, by decide, by decide, by decide, by decide, by decide, by decide,
      by decide⟩

/-- If `SetLoss` recorded both directions, then for every call
`SetLoss(x, y, 0)` of problem1c and of problem2 the matrix would be Reachable
with 0 dB from `x` to `y` and from `y` to `x`, and would give every ordered
pair of nodes the same loss as the reversed pair. -/
theorem both_directions_matrix_symmetric (initialDefault : Int) (symmetric : Bool)
    (hsym : symmetric = true) :
    (∃ r, problem1c.main initialDefault symmetric = Outcome.done r ∧
      (∀ p ∈ problem1c.setLossCalls r,
        r.propagationLoss.GetLoss p.1 p.2 = 0 ∧ r.propagationLoss.GetLoss p.2 p.1 = 0 ∧
        r.propagationLoss.query p.1 p.2 = LossOutcome.Reachable 0 ∧
        r.propagationLoss.query p.2 p.1 = LossOutcome.Reachable 0) ∧
      (∀ x ∈ r.config.nodes, ∀ y ∈ r.config.nodes,
        r.propagationLoss.GetLoss x y = r.propagationLoss.GetLoss y x ∧
        r.propagationLoss.query x y = r.propagationLoss.query y x)) ∧
    (∃ r, problem2.main initialDefault symmetric = Outcome.done r ∧
      (∀ p ∈ problem2.setLossCalls r,
        r.propagationLoss.GetLoss p.1 p.2 = 0 ∧ r.propagationLoss.GetLoss p.2 p.1 = 0 ∧
        r.propagationLoss.query p.1 p.2 = LossOutcome.Reachable 0 ∧
        r.propagationLoss.query p.2 p.1 = LossOutcome.Reachable 0) ∧
      (∀ x ∈ r.config.nodes, ∀ y ∈ r.config.nodes,
        r.propagationLoss.GetLoss x y = r.propagationLoss.GetLoss y x ∧
        r.propagationLoss.query x y = r.propagationLoss.query y x)) := by
  subst hsym
  rw [problem1c.initialDefault_unused_1c, problem2.initialDefault_unused_2]
  constructor <;> exact ⟨_, rfl, by decide, by decide⟩

/-- C5: the flows of problem1c and of problem2 are those of the header
comments (two in problem1c: `a->A` and `B->b`; three in problem2: `A->a`,
`B->b`, `C->c`): for every listed flow a source is installed on the sender,
addressed to the address of the receiver on port 55555, and a sink on port
55555 is installed on the receiver; every installed source and every
installed sink belongs to a listed flow; the node addresses are pairwise
distinct, so a destination address names one node. -/
theorem C5_flows_match_header (initialDefault : Int) (symmetric : Bool) :
    (∃ r, problem1c.main initialDefault symmetric = Outcome.done r ∧
      r.config.sources.length = 2 ∧ r.config.sinks.length = 2 ∧
      (problem1c.headerFlows r).length = 2 ∧
      (∀ q ∈ problem1c.headerFlows r,
        (∃ s ∈ r.config.sources, s.node = q.1 ∧
          r.config.addressOf q.2 = some s.attributes.remote.m_ipv4 ∧
          s.attributes.remote.m_port = 55555) ∧
        (∃ k ∈ r.config.sinks, k.node = q.2 ∧ k.m_port = 55555)) ∧
      (∀ s ∈ r.config.sources, ∃ q ∈ problem1c.headerFlows r, s.node = q.1 ∧
        r.config.addressOf q.2 = some s.attributes.remote.m_ipv4 ∧
        s.attributes.remote.m_port = 55555) ∧
      (∀ k ∈ r.config.sinks, k.m_port = 55555 ∧ ∃ q ∈ problem1c.headerFlows r, k.node = q.2) ∧
      (r.config.interfaces.map (fun e => e.2)).Nodup ∧
      (r.config.interfaces.map (fun e => e.1.node)).Nodup) ∧
    (∃ r, problem2.main initialDefault symmetric = Outcome.done r ∧
      r.config.sources.length = 3 ∧ r.config.sinks.length = 3 ∧
      (problem2.headerFlows r).length = 3 ∧
      (∀ q ∈ problem2.headerFlows r,
        (∃ s ∈ r.config.sources, s.node = q.1 ∧
          r.config.addressOf q.2 = some s.attributes.remote.m_ipv4 ∧
          s.attributes.remote.m_port = 55555) ∧
        (∃ k ∈ r.config.sinks, k.node = q.2 ∧ k.m_port = 55555)) ∧
      (∀ s ∈ r.config.sources, ∃ q ∈ problem2.headerFlows r, s.node = q.1 ∧
        r.config.addressOf q.2 = some s.attributes.remote.m_ipv4 ∧
        s.attributes.remote.m_port = 55555) ∧
      (∀ k ∈ r.config.sinks, k.m_port = 55555 ∧ ∃ q ∈ problem2.headerFlows r, k.node = q.2) ∧
      (r.config.interfaces.map (fun e => e.2)).Nodup ∧
      (r.config.interfaces.map (fun e => e.1.node)).Nodup) := by
  rw [problem1c.initialDefault_unused_1c, problem2.initialDefault_unused_2]
  constructor <;> cases symmetric <;>
    exact ⟨_, rfl, by decide, by decide, by decide, by decide, by decide, by decide,
      by decide, by decide⟩

/-- If `SetLoss` recorded both directions, the matrix of problem1c would be
the hidden-terminal topology of its header comment: senders `a` and `B`
mutually Unreachable, each Reachable to `b` in both directions, `b` the
receiver of the flow sent by `B`, and receiver `A` Reachable from `a` and not
from `B`. -/
theorem both_directions_hidden_terminal (initialDefault : Int) (symmetric : Bool)
    (hsym : symmetric = true) :
    ∃ r, problem1c.main initialDefault symmetric = Outcome.done r ∧
      r.config.sources.map (fun s => s.node) = [r.B, r.a] ∧
      (r.propagationLoss.GetLoss r.a r.B = 200 ∧ r.propagationLoss.GetLoss r.B r.a = 200 ∧
        r.propagationLoss.query r.a r.B = LossOutcome.Unreachable ∧
        r.propagationLoss.query r.B r.a = LossOutcome.Unreachable) ∧
      (∀ s ∈ r.config.sources,
        r.propagationLoss.GetLoss s.node r.b = 0 ∧ r.propagationLoss.GetLoss r.b s.node = 0 ∧
        r.propagationLoss.query s.node r.b = LossOutcome.Reachable 0 ∧
        r.propagationLoss.query r.b s.node = LossOutcome.Reachable 0) ∧
      (∃ s ∈ r.config.sources, s.node = r.B ∧
        r.config.addressOf r.b = some s.attributes.remote.m_ipv4) ∧
      (∃ s ∈ r.config.sources, s.node = r.a ∧
        r.config.addressOf r.A = some s.attributes.remote.m_ipv4) ∧
      (∀ s ∈ r.config.sources,
        (r.propagationLoss.query s.node r.A = LossOutcome.Reachable 0 ↔ s.node = r.a) ∧
        (r.propagationLoss.GetLoss s.node r.A = 0 ↔ s.node = r.a)) ∧
      (r.propagationLoss.GetLoss r.B r.A = 200 ∧
        r.propagationLoss.query r.B r.A = LossOutcome.Unreachable) := by
  subst hsym
  rw [problem1c.initialDefault_unused_1c]
  exact ⟨_, rfl, by decide, by decide, by decide, by decide, by decide, by decide, by decide⟩

/-- If `SetLoss` recorded both directions, the matrix of problem2 would hold
the chains `A - B - C` and `a - b - c` of its header comment, with receiver
`b` Reachable from all three senders, receiver `a` from exactly `A` and `B`,
receiver `c` from exactly `B` and `C`. -/
theorem both_directions_chain (initialDefault : Int) (symmetric : Bool)
    (hsym : symmetric = true) :
    ∃ r, problem2.main initialDefault symmetric = Outcome.done r ∧
      (∀ p ∈ [(r.B, r.A), (r.A, r.B), (r.B, r.C), (r.C, r.B),
          (r.b, r.a), (r.a, r.b), (r.b, r.c), (r.c, r.b)],
        r.propagationLoss.GetLoss p.1 p.2 = 0 ∧
        r.propagationLoss.query p.1 p.2 = LossOutcome.Reachable 0) ∧
      (∀ p ∈ [(r.A, r.C), (r.C, r.A), (r.a, r.c), (r.c, r.a)],
        r.propagationLoss.GetLoss p.1 p.2 = 200 ∧
        r.propagationLoss.query p.1 p.2 = LossOutcome.Unreachable) ∧
      r.config.sources.map (fun s => s.node) = [r.B, r.A, r.C] ∧
      r.config.sinks.map (fun k => k.node) = [r.b, r.a, r.c] ∧
      (∀ s ∈ r.config.sources,
        r.propagationLoss.GetLoss s.node r.b = 0 ∧
        r.propagationLoss.query s.node r.b = LossOutcome.Reachable 0) ∧
      (∀ s ∈ r.config.sources,
        (r.propagationLoss.query s.node r.a = LossOutcome.Reachable 0 ↔
          (s.node = r.A ∨ s.node = r.B)) ∧
        (r.propagationLoss.GetLoss s.node r.a = 0 ↔ (s.node = r.A ∨ s.node = r.B)) ∧
        (r.propagationLoss.GetLoss s.node r.a = 0 ∨ r.propagationLoss.GetLoss s.node r.a = 200)) ∧
      (∀ s ∈ r.config.sources,
        (r.propagationLoss.query s.node r.c = LossOutcome.Reachable 0 ↔
          (s.node = r.B ∨ s.node = r.C)) ∧
        (r.propagationLoss.GetLoss s.node r.c = 0 ↔ (s.node = r.B ∨ s.node = r.C)) ∧
        (r.propagationLoss.GetLoss s.node r.c = 0 ∨
          r.propagationLoss.GetLoss s.node r.c = 200)) := by
  subst hsym
  rw [problem2.initialDefault_unused_2]
  exact ⟨_, rfl, by decide, by decide, by decide, by decide, by decide, by decide, by decide⟩

/-- With `SetLoss` recording one direction only, sender `B` of problem1c is
not Reachable to its receiver `b`: the call is `SetLoss(b, B, 0)`. -/
theorem problem1c.directed_sender_unreachable (initialDefault : Int) :
    ∃ r, problem1c.main initialDefault false = Outcome.done r ∧
      r.propagationLoss.GetLoss r.b r.B = 0 ∧ r.propagationLoss.GetLoss r.B r.b = 200 := by
  rw [problem1c.initialDefault_unused_1c]
  exact ⟨_, rfl, by decide⟩

/-- C6: for every `nWifi` a `uint32_t` can hold, `main` of problem3a ends
(given fuel for `nWifi + 1` loop tests) having created `nWifi + 1` distinct
nodes, one with an access-point device and `nWifi` with station devices, and
`nWifi` sources: the `i`-th on station `wifiStaNodes.Get(i)` for every
`i < nWifi`, each addressed to the address of the access point on port
55555, where the one sink is installed; the loop leaves `counter = nWifi`,
and with `nWifi = 0` no source is installed. -/
theorem C6_problem3a_nodes_and_flows (fuel : Nat) (verbose : Bool) (nWifi : Nat)
    (hn : nWifi < 2 ^ 32) (hf : nWifi < fuel) :
    ∃ r, problem3a.main fuel verbose nWifi = Outcome.done r ∧
      r.config.nodes.length = nWifi + 1 ∧ r.config.nodes.Nodup ∧
      r.config.nodes = r.wifiApNode.m_nodes ++ r.wifiStaNodes.m_nodes ∧
      r.wifiApNode.GetN = 1 ∧ r.wifiStaNodes.GetN = nWifi ∧
      r.config.devices.map (fun d => (d.node, d.mac.type)) =
        r.wifiApNode.m_nodes.map (fun n => (n, WifiMacType.ApWifiMac)) ++
          r.wifiStaNodes.m_nodes.map (fun n => (n, WifiMacType.StaWifiMac)) ∧
      r.config.sources.length = nWifi ∧
      r.config.sources.map (fun s => s.node) = r.wifiStaNodes.m_nodes ∧
      (∀ i, i < nWifi → ∃ n s, r.wifiStaNodes.Get i = Outcome.done n ∧
        r.config.sources.get? i = some s ∧ s.node = n) ∧
      (∃ ap, r.wifiApNode.Get 0 = Outcome.done ap ∧
        r.config.sinks = [⟨ap, 55555, some (Seconds 0 1), some (Seconds 500 0)⟩] ∧
        ap ∉ r.wifiStaNodes.m_nodes ∧
        ∀ s ∈ r.config.sources, s.attributes.remote.m_port = 55555 ∧
          r.config.addressOf ap = some s.attributes.remote.m_ipv4) ∧
      r.counter = nWifi ∧
      (nWifi = 0 → r.config.sources = []) := by
  refine ⟨problem3a.finalRun verbose nWifi, problem3a.main_eq fuel verbose nWifi hn hf,
    ?_, ?_, ?_, rfl, ?_, ?_, ?_, ?_, ?_, ?_, rfl, ?_⟩
  · simp [problem3a.finalRun]
  · simp [problem3a.finalRun, List.nodup_range']
  · rfl
  · simp [problem3a.finalRun, NodeContainer.GetN]
  · simp only [problem3a.finalRun, List.map_append, WifiHelper.installOn_map]
    rfl
  · simp [problem3a.finalRun]
  · simp only [problem3a.finalRun, List.map_map]
    exact List.ext_getElem (by simp) (by intro i h1 h2; simp [Nat.add_comm])
  · intro i hi
    refine ⟨1 + i, ⟨1 + i, problem3a.stationSource⟩, ?_, ?_, rfl⟩
    · exact NodeContainer.Get_range' 1 nWifi i hi
    · simp [problem3a.finalRun, List.getElem?_range', hi]
  · refine ⟨0, rfl, rfl, ?_, ?_⟩
    · simp [problem3a.finalRun]
    · intro s hs
      simp only [problem3a.finalRun, List.mem_map] at hs
      obtain ⟨i, _, rfl⟩ := hs
      exact ⟨rfl, rfl⟩
  · intro h0
    subst h0
    rfl

/-- Witness for C6 at `nWifi = 3` with fuel 4: the run ends with four nodes
and three sources. -/
theorem C6_problem3a_nodes_and_flows_witness :
    (3 < 2 ^ 32 ∧ 3 < 4) ∧
    ∃ r, problem3a.main 4 true 3 = Outcome.done r ∧
      r.config.nodes.length = 4 ∧ r.config.sources.length = 3 :=
  ⟨⟨by decide, by decide⟩,
    (C6_problem3a_nodes_and_flows 4 true 3 (by decide) (by decide)).imp
      (fun _ h => ⟨h.1, h.2.1, h.2.2.2.2.2.2.2.1⟩)⟩

/-- C3: in problem1c, problem2 and problem3a the RTS/CTS threshold handed to
the library is 0, every source has `PacketSize` 1024, which exceeds it, and
so the threshold rule selects RTS/CTS for the payload of every source, as it
does for every payload larger than 0. -/
theorem C3_rts_cts_for_every_flow (initialDefault : Int) (symmetric : Bool)
    (fuel : Nat) (verbose : Bool) (nWifi : Nat) (hn : nWifi < 2 ^ 32) (hf : nWifi < fuel) :
    (∃ r, problem1c.main initialDefault symmetric = Outcome.done r ∧
      r.config.RtsCtsThreshold = 0 ∧ r.config.sources ≠ [] ∧
      (∀ s ∈ r.config.sources, s.attributes.PacketSize = some 1024 ∧
        usesRtsCts r.config.RtsCtsThreshold 1024 = true) ∧
      (∀ payload, 0 < payload → usesRtsCts r.config.RtsCtsThreshold payload = true)) ∧
    (∃ r, problem2.main initialDefault symmetric = Outcome.done r ∧
      r.config.RtsCtsThreshold = 0 ∧ r.config.sources ≠ [] ∧
      (∀ s ∈ r.config.sources, s.attributes.PacketSize = some 1024 ∧
        usesRtsCts r.config.RtsCtsThreshold 1024 = true) ∧
      (∀ payload, 0 < payload → usesRtsCts r.config.RtsCtsThreshold payload = true)) ∧
    (∃ r, problem3a.main fuel verbose nWifi = Outcome.done r ∧
      r.config.RtsCtsThreshold = 0 ∧ r.config.sources.length = nWifi ∧
      (∀ s ∈ r.config.sources, s.attributes.PacketSize = some 1024 ∧
        usesRtsCts r.config.RtsCtsThreshold 1024 = true) ∧
      (∀ payload, 0 < payload → usesRtsCts r.config.RtsCtsThreshold payload = true)) := by
  rw [problem1c.initialDefault_unused_1c, problem2.initialDefault_unused_2]
  refine ⟨?_, ?_, problem3a.finalRun verbose nWifi,
    problem3a.main_eq fuel verbose nWifi hn hf, rfl, ?_, ?_, ?_⟩
  · cases symmetric <;>
      exact ⟨_, rfl, by decide, by decide, by decide,
        fun payload hp => by simpa [usesRtsCts] using hp⟩
  · cases symmetric <;>
      exact ⟨_, rfl, by decide, by decide, by decide,
        fun payload hp => by simpa [usesRtsCts] using hp⟩
  · simp [problem3a.finalRun]
  · intro s hs
    simp only [problem3a.finalRun, List.mem_map] at hs
    obtain ⟨i, _, rfl⟩ := hs
    exact ⟨rfl, rfl⟩
  · intro payload hp
    simpa [usesRtsCts, problem3a.finalRun] using hp

/-- Witness for C3 at the default inputs of problem3a (`verbose = true`,
`nWifi = 1`): its one source has `PacketSize` 1024 and threshold 0. -/
theorem C3_rts_cts_for_every_flow_witness :
    (1 < 2 ^ 32 ∧ 1 < 2) ∧
    ∃ r, problem3a.main 2 true 1 = Outcome.done r ∧
      r.config.RtsCtsThreshold = 0 ∧ r.config.sources.length = 1 :=
  ⟨⟨by decide, by decide⟩,
    (C3_rts_cts_for_every_flow 200 true 2 true 1 (by decide) (by decide)).2.2.imp
      (fun _ h => ⟨h.1, h.2.1, h.2.2.1⟩)⟩

/-- C9: in problem1c, problem2 and problem3a every sink starts at 0.1 s and
stops at the simulator stop time (200 s, 200 s, 500 s); every source starts
at 0.2 s, after the sinks start, has no `StopTime` of its own and so runs to
the simulator stop time; its window starts strictly before it ends, so
activating it does not fail with `InvalidSchedule`, and the window lies
within the time the sinks are active. -/
theorem C9_valid_time_windows (initialDefault : Int) (symmetric : Bool)
    (fuel : Nat) (verbose : Bool) (nWifi : Nat) (hn : nWifi < 2 ^ 32) (hf : nWifi < fuel) :
    (∃ r, problem1c.main initialDefault symmetric = Outcome.done r ∧
      r.config.stopTime = some (Seconds 200 0) ∧ r.config.sinks ≠ [] ∧
      (∀ k ∈ r.config.sinks, k.m_startTime = some (Seconds 0 1) ∧
        k.m_stopTime = r.config.stopTime) ∧
      (∀ s ∈ r.config.sources, s.attributes.StartTime = some (Seconds 0 2) ∧
        s.attributes.StopTime = none ∧
        r.config.window s = some (Seconds 0 2, Seconds 200 0) ∧
        activate (Seconds 0 2) (Seconds 200 0) = Except.ok (Seconds 0 2, Seconds 200 0))) ∧
    (∃ r, problem2.main initialDefault symmetric = Outcome.done r ∧
      r.config.stopTime = some (Seconds 200 0) ∧ r.config.sinks ≠ [] ∧
      (∀ k ∈ r.config.sinks, k.m_startTime = some (Seconds 0 1) ∧
        k.m_stopTime = r.config.stopTime) ∧
      (∀ s ∈ r.config.sources, s.attributes.StartTime = some (Seconds 0 2) ∧
        s.attributes.StopTime = none ∧
        r.config.window s = some (Seconds 0 2, Seconds 200 0) ∧
        activate (Seconds 0 2) (Seconds 200 0) = Except.ok (Seconds 0 2, Seconds 200 0))) ∧
    (∃ r, problem3a.main fuel verbose nWifi = Outcome.done r ∧
      r.config.stopTime = some (Seconds 500 0) ∧ r.config.sinks ≠ [] ∧
      (∀ k ∈ r.config.sinks, k.m_startTime = some (Seconds 0 1) ∧
        k.m_stopTime = r.config.stopTime) ∧
      (∀ s ∈ r.config.sources, s.attributes.StartTime = some (Seconds 0 2) ∧
        s.attributes.StopTime = none ∧
        r.config.window s = some (Seconds 0 2, Seconds 500 0) ∧
        activate (Seconds 0 2) (Seconds 500 0) = Except.ok (Seconds 0 2, Seconds 500 0))) ∧
    (Seconds 0 1 < Seconds 0 2 ∧ Seconds 0 2 < Seconds 200 0 ∧ Seconds 0 2 < Seconds 500 0) := by
  rw [problem1c.initialDefault_unused_1c, problem2.initialDefault_unused_2]
  refine ⟨?_, ?_, ⟨problem3a.finalRun verbose nWifi,
    problem3a.main_eq fuel verbose nWifi hn hf, rfl, ?_, ?_, ?_⟩, by decide⟩
  · cases symmetric <;> exact ⟨_, rfl, by decide, by decide, by decide, by decide⟩
  · cases symmetric <;> exact ⟨_, rfl, by decide, by decide, by decide, by decide⟩
  · simp [problem3a.finalRun]
  · intro k hk
    simp only [problem3a.finalRun, List.mem_singleton] at hk
    subst hk
    exact ⟨rfl, rfl⟩
  · intro s hs
    simp only [problem3a.finalRun, List.mem_map] at hs
    obtain ⟨i, _, rfl⟩ := hs
    exact ⟨rfl, rfl, rfl, by decide⟩

/-- Witness for C9 at the default inputs of problem3a (`verbose = true`,
`nWifi = 1`): the run stops at 500 s and the sink starts at 0.1 s. -/
theorem C9_valid_time_windows_witness :
    (1 < 2 ^ 32 ∧ 1 < 2) ∧
    ∃ r, problem3a.main 2 true 1 = Outcome.done r ∧
      r.config.stopTime = some (Seconds 500 0) ∧
      ∀ k ∈ r.config.sinks, k.m_startTime = some (Seconds 0 1) ∧
        k.m_stopTime = r.config.stopTime :=
  ⟨⟨by decide, by decide⟩,
    (C9_valid_time_windows 200 true 2 true 1 (by decide) (by decide)).2.2.1.imp
      (fun _ h => ⟨h.1, h.2.1, h.2.2.2.1⟩)⟩

/-- C10, as stated, fails for problem3a: at its default inputs
(`verbose = true`, `nWifi = 1`) the channel comes from
`YansWifiChannelHelper::Default()` and carries no loss matrix. -/
theorem C10_problem3a_has_no_loss_matrix :
    ∃ r, problem3a.main 2 true 1 = Outcome.done r ∧
      r.config.channelLoss = PropagationLoss.helperDefault ∧
      r.config.lossMatrix = none ∧
      ¬ ∃ m, r.config.channelLoss = PropagationLoss.matrix m :=
  ⟨_, rfl, rfl, rfl, by rintro ⟨m, h⟩; cases h⟩

/-- C10, amended: problem1c and problem2 configure their channel with an
explicit pairwise loss matrix (default loss 200 dB plus the entries of the
`SetLoss` calls); problem3a, for every `nWifi`, takes the channel of
`YansWifiChannelHelper::Default()` and sets no loss matrix. -/
theorem C10_loss_matrix_in_problem1c_and_problem2 (initialDefault : Int) (symmetric : Bool)
    (fuel : Nat) (verbose : Bool) (nWifi : Nat) (hn : nWifi < 2 ^ 32) (hf : nWifi < fuel) :
    (∃ r, problem1c.main initialDefault symmetric = Outcome.done r ∧
      r.config.lossMatrix = some r.propagationLoss ∧
      r.propagationLoss.m_default = 200 ∧
      r.propagationLoss.m_loss.length = (if symmetric then 6 else 3) ∧
      ∀ p ∈ problem1c.setLossCalls r, r.propagationLoss.entry p.1 p.2 = some 0) ∧
    (∃ r, problem2.main initialDefault symmetric = Outcome.done r ∧
      r.config.lossMatrix = some r.propagationLoss ∧
      r.propagationLoss.m_default = 200 ∧
      r.propagationLoss.m_loss.length = (if symmetric then 22 else 11) ∧
      ∀ p ∈ problem2.setLossCalls r, r.propagationLoss.entry p.1 p.2 = some 0) ∧
    (∃ r, problem3a.main fuel verbose nWifi = Outcome.done r ∧
      r.config.channelLoss = PropagationLoss.helperDefault ∧
      r.config.lossMatrix = none) := by
  rw [problem1c.initialDefault_unused_1c, problem2.initialDefault_unused_2]
  refine ⟨?_, ?_, problem3a.finalRun verbose nWifi,
    problem3a.main_eq fuel verbose nWifi hn hf, rfl, rfl⟩
  · cases symmetric <;> exact ⟨_, rfl, by decide, by decide, by decide, by decide⟩
  · cases symmetric <;> exact ⟨_, rfl, by decide, by decide, by decide, by decide⟩

/-- Witness for amended C10 at `nWifi = 3` with fuel 4. -/
theorem C10_loss_matrix_in_problem1c_and_problem2_witness :
    (3 < 2 ^ 32 ∧ 3 < 4) ∧
    ∃ r, problem3a.main 4 false 3 = Outcome.done r ∧
      r.config.channelLoss = PropagationLoss.helperDefault ∧
      r.config.lossMatrix = none :=
  ⟨⟨by decide, by decide⟩,
    (C10_loss_matrix_in_problem1c_and_problem2 200 true 4 false 3 (by decide) (by decide)).2.2⟩
/-! ## Addresses -/

/-- Among the devices installed on the nodes `s, s+1, ...`, the device of
node `s + i` carries the `(i+1)`-th MAC address handed out by the call. -/
theorem ns3.WifiHelper.installOn_find (mac : WifiMacHelper) :
    ∀ (m s k i : Nat), i < m →
      (WifiHelper.installOn mac k (List.range' s m)).find? (fun d => d.node = s + i) =
        some ⟨s + i, k + i + 1, mac⟩ := by
  intro m
  induction m with
  | zero => intro s k i h; omega
  | succ m ih =>
    intro s k i h
    rw [List.range'_succ]
    cases i with
    | zero => simp [WifiHelper.installOn]
    | succ j =>
      have hne : ¬ s = s + (j + 1) := by omega
      simp only [WifiHelper.installOn, List.find?_cons, hne, decide_False]
      have := ih (s + 1) (k + 1) j (by omega)
      have e1 : s + 1 + j = s + (j + 1) := by omega
      have e2 : k + 1 + j + 1 = k + (j + 1) + 1 := by omega
      rw [e1, e2] at this
      exact this

/-- Among the interfaces assigned to the devices of the nodes `s, s+1, ...`,
the interface of node `s + i` carries host number `host + i`. -/
theorem ns3.Ipv4AddressHelper.assignTo_find (network : Nat) (mac : WifiMacHelper) :
    ∀ (m s k host i : Nat), i < m →
      (Ipv4AddressHelper.assignTo network host
        (WifiHelper.installOn mac k (List.range' s m))).find? (fun e => e.1.node = s + i) =
        some (⟨s + i, k + i + 1, mac⟩, (network + (host + i)) % 2 ^ 32) := by
  intro m
  induction m with
  | zero => intro s k host i h; omega
  | succ m ih =>
    intro s k host i h
    rw [List.range'_succ]
    cases i with
    | zero => simp [WifiHelper.installOn, Ipv4AddressHelper.assignTo]
    | succ j =>
      have hne : ¬ s = s + (j + 1) := by omega
      simp only [WifiHelper.installOn, Ipv4AddressHelper.assignTo, List.find?_cons, hne,
        decide_False]
      have := ih (s + 1) (k + 1) (host + 1) j (by omega)
      have e1 : s + 1 + j = s + (j + 1) := by omega
      have e2 : k + 1 + j + 1 = k + (j + 1) + 1 := by omega
      have e3 : host + 1 + j = host + (j + 1) := by omega
      rw [e1, e2, e3] at this
      exact this

/-- In problem3a station `STA-n` is node `n`; its device carries the
`(n+1)`-th MAC address and its interface host number `n + 1` of the network
`192.168.1.0`. -/
theorem problem3a.finalRun_station (verbose : Bool) (nWifi n : Nat) (h1 : 1 ≤ n)
    (h2 : n ≤ nWifi) :
    NodeContainer.Get (problem3a.finalRun verbose nWifi).wifiStaNodes (n - 1) = Outcome.done n ∧
    (problem3a.finalRun verbose nWifi).config.macOf n = some (n + 1) ∧
    (problem3a.finalRun verbose nWifi).config.addressOf n =
      some ((Ipv4Address 192 168 1 0 + (n + 1)) % 2 ^ 32) := by
  obtain ⟨i, rfl⟩ : ∃ i, n = 1 + i := ⟨n - 1, by omega⟩
  have h : i < nWifi := by omega
  have hne : ¬ 0 = 1 + i := by omega
  have hi : 1 + i - 1 = i := by omega
  refine ⟨?_, ?_, ?_⟩
  · rw [hi]
    exact NodeContainer.Get_range' 1 nWifi i h
  · simp only [Config.macOf, problem3a.finalRun, List.cons_append, List.nil_append,
      List.find?_cons, hne, decide_False]
    rw [WifiHelper.installOn_find _ nWifi 1 1 i h]
    simp
  · simp only [Config.addressOf, problem3a.finalRun, List.find?_cons, hne, decide_False]
    rw [Ipv4AddressHelper.assignTo_find _ _ nWifi 1 1 2 i h]
    have e : 2 + i = 1 + i + 1 := by omega
    simp [e]

/-- A host number up to 255 is the last octet of the address it gives in the
network `192.168.1.0`. -/
theorem ns3.octets_of_host (h : Nat) (hh : h ≤ 255) :
    octets ((Ipv4Address 192 168 1 0 + h) % 2 ^ 32) = (192, 168, 1, h) := by
  simp only [octets, Ipv4Address]
  norm_num
  omega

/-- C11, as stated, fails for problem3a with `nWifi = 255`: station `STA-255`
gets the 256th MAC address, whose final octet is `00`, and host number 256,
which reads `192.168.2.0`; no octet holds `n + 1 = 256`. -/
theorem C11_station_255_addresses_wrap :
    ∃ r sta, problem3a.main 256 true 255 = Outcome.done r ∧
      r.wifiStaNodes.Get (255 - 1) = Outcome.done sta ∧
      (r.config.macOf sta).map finalOctet = some 0 ∧
      (r.config.addressOf sta).map octets = some (192, 168, 2, 0) ∧
      ¬ ((r.config.macOf sta).map finalOctet = some (255 + 1) ∧
        (r.config.addressOf sta).map octets = some (192, 168, 1, 255 + 1)) := by
  obtain ⟨hg, hm, ha⟩ := problem3a.finalRun_station true 255 255 (by decide) (by decide)
  refine ⟨problem3a.finalRun true 255, 255,
    problem3a.main_eq 256 true 255 (by decide) (by decide), hg, ?_, ?_, ?_⟩
  · rw [hm]; decide
  · rw [ha]; decide
  · rw [hm]; decide

/-- C11, amended: with MAC addresses and host numbers handed out in sequence,
every node of problem1c and of problem2 gets the MAC and IP address of its
row of the header table, and the rows cover all nodes; in problem3a the
access point gets `00:00:00:00:00:01` and `192.168.1.1`, and station `STA-n`,
for `1 ≤ n ≤ nWifi`, gets the `(n+1)`-th MAC address and host number `n + 1`,
which read `00:00:00:00:00:<n+1>` and `192.168.1.<n+1>` when `n ≤ 254`. -/
theorem C11_addresses_match_header_tables (initialDefault : Int) (symmetric : Bool)
    (fuel : Nat) (verbose : Bool) (nWifi : Nat) (hn : nWifi < 2 ^ 32) (hf : nWifi < fuel) :
    (∃ r, problem1c.main initialDefault symmetric = Outcome.done r ∧
      (problem1c.headerTable r).map (fun row => row.1) = r.config.nodes ∧
      (∀ row ∈ problem1c.headerTable r,
        r.config.macOf row.1 = some row.2.1 ∧ r.config.addressOf row.1 = some row.2.2) ∧
      (problem1c.headerTable r).map (fun row => (finalOctet row.2.1, octets row.2.2)) =
        [(1, (192, 168, 1, 1)), (2, (192, 168, 1, 2)), (3, (192, 168, 2, 1)),
          (4, (192, 168, 2, 2))]) ∧
    (∃ r, problem2.main initialDefault symmetric = Outcome.done r ∧
      (problem2.headerTable r).map (fun row => row.1) = r.config.nodes ∧
      (∀ row ∈ problem2.headerTable r,
        r.config.macOf row.1 = some row.2.1 ∧ r.config.addressOf row.1 = some row.2.2) ∧
      (problem2.headerTable r).map (fun row => (finalOctet row.2.1, octets row.2.2)) =
        [(1, (192, 168, 1, 1)), (2, (192, 168, 1, 2)), (3, (192, 168, 2, 1)),
          (4, (192, 168, 2, 2)), (5, (192, 168, 3, 1)), (6, (192, 168, 3, 2))]) ∧
    (∃ r, problem3a.main fuel verbose nWifi = Outcome.done r ∧
      (∃ ap, r.wifiApNode.Get 0 = Outcome.done ap ∧
        r.config.macOf ap = some (Mac48Address 0 0 0 0 0 1) ∧
        r.config.addressOf ap = some (Ipv4Address 192 168 1 1) ∧
        finalOctet (Mac48Address 0 0 0 0 0 1) = 1 ∧
        octets (Ipv4Address 192 168 1 1) = (192, 168, 1, 1)) ∧
      ∀ n, 1 ≤ n → n ≤ nWifi →
        ∃ sta mac ip, r.wifiStaNodes.Get (n - 1) = Outcome.done sta ∧
          r.config.macOf sta = some mac ∧ r.config.addressOf sta = some ip ∧
          mac = n + 1 ∧ ip = (Ipv4Address 192 168 1 0 + (n + 1)) % 2 ^ 32 ∧
          (n ≤ 254 → mac = Mac48Address 0 0 0 0 0 (n + 1) ∧ mac < 256 ∧
            finalOctet mac = n + 1 ∧ octets ip = (192, 168, 1, n + 1))) := by
  rw [problem1c.initialDefault_unused_1c, problem2.initialDefault_unused_2]
  refine ⟨?_, ?_, problem3a.finalRun verbose nWifi,
    problem3a.main_eq fuel verbose nWifi hn hf, ⟨0, rfl, by simp [Config.macOf, problem3a.finalRun, Mac48Address],
      by simp [Config.addressOf, problem3a.finalRun], by decide, by decide⟩, ?_⟩
  · cases symmetric <;> exact ⟨_, rfl, by decide, by decide, by decide⟩
  · cases symmetric <;> exact ⟨_, rfl, by decide, by decide, by decide⟩
  · intro n h1 h2
    obtain ⟨hg, hm, ha⟩ := problem3a.finalRun_station verbose nWifi n h1 h2
    refine ⟨n, n + 1, _, hg, hm, ha, rfl, rfl, ?_⟩
    intro h254
    refine ⟨?_, by omega, ?_, octets_of_host (n + 1) (by omega)⟩
    · simp [Mac48Address]
    · simp only [finalOctet]
      omega

/-- Witness for amended C11 at `nWifi = 3` with fuel 4: station `STA-3` gets
`00:00:00:00:00:04` and `192.168.1.4`. -/
theorem C11_addresses_match_header_tables_witness :
    (3 < 2 ^ 32 ∧ 3 < 4) ∧
    ∃ r, problem3a.main 4 true 3 = Outcome.done r ∧
      ∃ sta mac ip, r.wifiStaNodes.Get (3 - 1) = Outcome.done sta ∧
        r.config.macOf sta = some mac ∧ r.config.addressOf sta = some ip ∧
        finalOctet mac = 3 + 1 ∧ octets ip = (192, 168, 1, 3 + 1) :=
  ⟨⟨by decide, by decide⟩,
    (C11_addresses_match_header_tables 200 true 4 true 3 (by decide) (by decide)).2.2.imp
      (fun _ h => ⟨h.1,
        (h.2.2 3 (by decide) (by decide)).imp (fun _ hs => hs.imp (fun _ hm => hm.imp
          (fun _ hi => ⟨hi.1, hi.2.1, hi.2.2.1,
            (hi.2.2.2.2.2 (by decide)).2.2.1, (hi.2.2.2.2.2 (by decide)).2.2.2⟩)))⟩)⟩

/-- Every flow of problem1c and of problem2 has a `SetLoss` call naming its
two nodes; for `B->b` (both programs), `A->a` and `C->c` (problem2) the call
names the receiver first.  If `SetLoss` recorded both directions, the matrix
would be Reachable (0 dB) from each flow's sender to its receiver and back;
recording the one directed entry of the call, only the direction of the call
is Reachable and the reverse stays at 200 dB. -/
theorem flow_reachability_by_recording_mode (initialDefault : Int) (symmetric : Bool) :
    (∃ r, problem1c.main initialDefault symmetric = Outcome.done r ∧
      r.config.sources.map (fun s => (s.node, some s.attributes.remote.m_ipv4)) =
        [(r.B, r.config.addressOf r.b), (r.a, r.config.addressOf r.A)] ∧
      (r.a, r.A) ∈ problem1c.setLossCalls r ∧ (r.b, r.B) ∈ problem1c.setLossCalls r ∧
      (∀ q ∈ problem1c.headerFlows r,
        (∃ p ∈ problem1c.setLossCalls r, samePair p q) ∧
        (symmetric = true →
          r.propagationLoss.GetLoss q.1 q.2 = 0 ∧ r.propagationLoss.GetLoss q.2 q.1 = 0 ∧
          r.propagationLoss.query q.1 q.2 = LossOutcome.Reachable 0 ∧
          r.propagationLoss.query q.2 q.1 = LossOutcome.Reachable 0) ∧
        (symmetric = false → ∀ p ∈ problem1c.setLossCalls r, samePair p q →
          r.propagationLoss.GetLoss p.1 p.2 = 0 ∧ r.propagationLoss.GetLoss p.2 p.1 = 200 ∧
          r.propagationLoss.query p.1 p.2 = LossOutcome.Reachable 0 ∧
          r.propagationLoss.query p.2 p.1 = LossOutcome.Unreachable))) ∧
    (∃ r, problem2.main initialDefault symmetric = Outcome.done r ∧
      r.config.sources.map (fun s => (s.node, some s.attributes.remote.m_ipv4)) =
        [(r.B, r.config.addressOf r.b), (r.A, r.config.addressOf r.a),
          (r.C, r.config.addressOf r.c)] ∧
      (r.a, r.A) ∈ problem2.setLossCalls r ∧ (r.b, r.B) ∈ problem2.setLossCalls r ∧
      (r.c, r.C) ∈ problem2.setLossCalls r ∧
      (∀ q ∈ problem2.headerFlows r,
        (∃ p ∈ problem2.setLossCalls r, samePair p q) ∧
        (symmetric = true →
          r.propagationLoss.GetLoss q.1 q.2 = 0 ∧ r.propagationLoss.GetLoss q.2 q.1 = 0 ∧
          r.propagationLoss.query q.1 q.2 = LossOutcome.Reachable 0 ∧
          r.propagationLoss.query q.2 q.1 = LossOutcome.Reachable 0) ∧
        (symmetric = false → ∀ p ∈ problem2.setLossCalls r, samePair p q →
          r.propagationLoss.GetLoss p.1 p.2 = 0 ∧ r.propagationLoss.GetLoss p.2 p.1 = 200 ∧
          r.propagationLoss.query p.1 p.2 = LossOutcome.Reachable 0 ∧
          r.propagationLoss.query p.2 p.1 = LossOutcome.Unreachable))) := by
  rw [problem1c.initialDefault_unused_1c, problem2.initialDefault_unused_2]
  constructor
  · cases symmetric <;> exact ⟨_, rfl, by decide, by decide, by decide, by decide⟩
  · cases symmetric <;> exact ⟨_, rfl, by decide, by decide, by decide, by decide, by decide⟩

/-- Whatever `verbose` is, `main` of problem3a configures the same: the runs
for one `nWifi` (and one fuel) differ at most in the log components. -/
theorem problem3a.configured_verbose (fuel nWifi : Nat) (v1 v2 : Bool) :
    (problem3a.main fuel v1 nWifi).map problem3a.Run.configured =
      (problem3a.main fuel v2 nWifi).map problem3a.Run.configured := by
  have h1 : NodeContainer.Get ⟨List.range' 0 1⟩ 0 = Outcome.done 0 := rfl
  have h2 : Ipv4InterfaceContainer.GetAddress
      ((Ipv4AddressHelper.SetBase (Ipv4Address 192 168 1 0) (Ipv4Address 255 255 255 0)).Assign
        (WifiHelper.Install 0 (WifiMacHelper.SetType WifiMacType.ApWifiMac "ssid_3a" none)
          ⟨List.range' 0 1⟩).1).1 0 = Outcome.done (Ipv4Address 192 168 1 1) := by decide
  unfold problem3a.main
  simp only [NodeContainer.Create, Nat.zero_add, h1, h2, Outcome.done_bind]
  generalize problem3a.installLoop _ _ _ _ _ _ = x
  cases x <;> rfl

/-- The log components `main` of problem3a switches on are decided by
`verbose` alone. -/
theorem problem3a.logging_verbose (fuel nWifi : Nat) (verbose : Bool) :
    (problem3a.main fuel verbose nWifi).map (fun r => r.logging) =
      (problem3a.main fuel verbose nWifi).map (fun _ =>
        if verbose then ["UdpEchoClientApplication", "UdpEchoServerApplication"] else []) := by
  have h1 : NodeContainer.Get ⟨List.range' 0 1⟩ 0 = Outcome.done 0 := rfl
  have h2 : Ipv4InterfaceContainer.GetAddress
      ((Ipv4AddressHelper.SetBase (Ipv4Address 192 168 1 0) (Ipv4Address 255 255 255 0)).Assign
        (WifiHelper.Install 0 (WifiMacHelper.SetType WifiMacType.ApWifiMac "ssid_3a" none)
          ⟨List.range' 0 1⟩).1).1 0 = Outcome.done (Ipv4Address 192 168 1 1) := by decide
  unfold problem3a.main
  simp only [NodeContainer.Create, Nat.zero_add, h1, h2, Outcome.done_bind]
  generalize problem3a.installLoop _ _ _ _ _ _ = x
  cases x <;> rfl

/-- C13: what each program configures is a function of its inputs alone.
problem1c and problem2 read no input: for either way `SetLoss` records, every
run ends with one and the same result, whatever default loss a fresh model
starts with, and everything but the loss matrix is the same for both ways of
recording.  For problem3a, two runs with the same `nWifi` configure the same
(node containers, `counter`, capture directory names, nodes, devices,
addresses, sinks, sources, stop time) whatever `verbose` is; `verbose`
decides the log components switched on, and nothing else. -/
theorem C13_configuration_function_of_inputs :
    (∀ symmetric : Bool, ∃ r, ∀ initialDefault : Int,
      problem1c.main initialDefault symmetric = Outcome.done r) ∧
    (∀ (d1 d2 : Int) (s1 s2 : Bool), ∃ r1 r2,
      problem1c.main d1 s1 = Outcome.done r1 ∧ problem1c.main d2 s2 = Outcome.done r2 ∧
      (r1.A, r1.a, r1.B, r1.b) = (r2.A, r2.a, r2.B, r2.b) ∧
      r1.config.RtsCtsThreshold = r2.config.RtsCtsThreshold ∧
      r1.config.nodes = r2.config.nodes ∧ r1.config.devices = r2.config.devices ∧
      r1.config.interfaces = r2.config.interfaces ∧ r1.config.sinks = r2.config.sinks ∧
      r1.config.sources = r2.config.sources ∧ r1.config.pcap = r2.config.pcap ∧
      r1.config.stopTime = r2.config.stopTime) ∧
    (∀ symmetric : Bool, ∃ r, ∀ initialDefault : Int,
      problem2.main initialDefault symmetric = Outcome.done r) ∧
    (∀ (d1 d2 : Int) (s1 s2 : Bool), ∃ r1 r2,
      problem2.main d1 s1 = Outcome.done r1 ∧ problem2.main d2 s2 = Outcome.done r2 ∧
      (r1.A, r1.a, r1.B, r1.b, r1.C, r1.c) = (r2.A, r2.a, r2.B, r2.b, r2.C, r2.c) ∧
      r1.config.RtsCtsThreshold = r2.config.RtsCtsThreshold ∧
      r1.config.nodes = r2.config.nodes ∧ r1.config.devices = r2.config.devices ∧
      r1.config.interfaces = r2.config.interfaces ∧ r1.config.sinks = r2.config.sinks ∧
      r1.config.sources = r2.config.sources ∧ r1.config.pcap = r2.config.pcap ∧
      r1.config.stopTime = r2.config.stopTime) ∧
    (∀ (fuel nWifi : Nat) (v1 v2 : Bool),
      (problem3a.main fuel v1 nWifi).map problem3a.Run.configured =
        (problem3a.main fuel v2 nWifi).map problem3a.Run.configured) ∧
    (∀ (fuel nWifi : Nat) (verbose : Bool),
      (problem3a.main fuel verbose nWifi).map (fun r => r.logging) =
        (problem3a.main fuel verbose nWifi).map (fun _ =>
          if verbose then ["UdpEchoClientApplication", "UdpEchoServerApplication"] else [])) ∧
    (∀ (fuel nWifi : Nat) (v1 v2 : Bool), nWifi < 2 ^ 32 → nWifi < fuel →
      ∃ r1 r2, problem3a.main fuel v1 nWifi = Outcome.done r1 ∧
        problem3a.main fuel v2 nWifi = Outcome.done r2 ∧
        r1.configured = r2.configured ∧
        r1.config.nodes.length = nWifi + 1 ∧ r1.config.sources.length = nWifi ∧
        r1.config.stopTime = some (Seconds 500 0) ∧
        r1.dir = "PacketCapture/Problem3a/" ++ problem3a.format_d nWifi ∧
        (r1.logging = r2.logging ↔ v1 = v2)) := by
  refine ⟨?_, ?_, ?_, ?_, problem3a.configured_verbose, problem3a.logging_verbose, ?_⟩
  · intro symmetric
    cases symmetric
    · exact ⟨_, fun d => (problem1c.initialDefault_unused_1c d false).trans rfl⟩
    · exact ⟨_, fun d => (problem1c.initialDefault_unused_1c d true).trans rfl⟩
  · intro d1 d2 s1 s2
    rw [problem1c.initialDefault_unused_1c d1, problem1c.initialDefault_unused_1c d2]
    cases s1 <;> cases s2 <;> exact ⟨_, _, rfl, rfl, by decide⟩
  · intro symmetric
    cases symmetric
    · exact ⟨_, fun d => (problem2.initialDefault_unused_2 d false).trans rfl⟩
    · exact ⟨_, fun d => (problem2.initialDefault_unused_2 d true).trans rfl⟩
  · intro d1 d2 s1 s2
    rw [problem2.initialDefault_unused_2 d1, problem2.initialDefault_unused_2 d2]
    cases s1 <;> cases s2 <;> exact ⟨_, _, rfl, rfl, by decide⟩
  · intro fuel nWifi v1 v2 hn hf
    refine ⟨problem3a.finalRun v1 nWifi, problem3a.finalRun v2 nWifi,
      problem3a.main_eq fuel v1 nWifi hn hf, problem3a.main_eq fuel v2 nWifi hn hf, rfl,
      by simp [problem3a.finalRun], by simp [problem3a.finalRun], rfl, rfl, ?_⟩
    cases v1 <;> cases v2 <;> simp [problem3a.finalRun]

/-! ## One `SetLoss` call per pair, one direction recorded

The comments of problem1c and problem2 put each named pair "within the
transmission range of each other", and the header comments draw each
conflicting pair as a two-way link, but each pair gets a single call
`SetLoss(x, y, 0)`.  With `SetLoss` recording a directed entry, the entry for
`(y, x)` is never made. -/

